import Mathlib

/-!
The `sp` processor core (`src/sp.c`).

A shallow embedding of the control state machine `sp_ctl` of the simple
processor simulator, together with the register snapshot pair it works on and
the synchronous memory it talks to.

Conventions of the embedding.

* A C `int` is an `Int`; the result of every arithmetic operation of the source
  is wrapped to the twos-complement range of 32 bits by `wrap32`.
* The bitwise operators `&`, `|`, `^` act on the 32-bit pattern of their
  operands (`toU32`), `>>` on a signed operand is the arithmetic shift, and a
  shift amount is taken modulo 32 (the source leaves other amounts undefined);
  `/` truncates toward zero.
* The register array `r[8]` is a function on indices; the decoder only ever
  produces indices `0..7`.
* `sp_ctl` reads and writes through the two pointers `spro` and `sprn`, the
  field `start` of `sp_t` and the global `btaken`; all of them are fields of
  the state that is passed through.
-/

namespace SP

/-! 32-bit integer arithmetic -/

/-- Wrap an integer to the range of a 32-bit twos-complement C `int`. -/
def wrap32 (x : Int) : Int := (x + 2147483648) % 4294967296 - 2147483648

/-- The 32-bit pattern of a C `int`, as an unsigned number below `2^32`. -/
def toU32 (x : Int) : Nat := (x % 4294967296).toNat

/-- C `a + b` on `int`. -/
def add32 (a b : Int) : Int := wrap32 (a + b)

/-- C `a - b` on `int`. -/
def sub32 (a b : Int) : Int := wrap32 (a - b)

/-- C `a & b` on `int`: bitwise on the 32-bit patterns. -/
def and32 (a b : Int) : Int := wrap32 ((toU32 a &&& toU32 b : Nat) : Int)

/-- C `a | b` on `int`: bitwise on the 32-bit patterns. -/
def or32 (a b : Int) : Int := wrap32 ((toU32 a ||| toU32 b : Nat) : Int)

/-- C `a ^ b` on `int`: bitwise on the 32-bit patterns. -/
def xor32 (a b : Int) : Int := wrap32 ((toU32 a ^^^ toU32 b : Nat) : Int)

/-- The shift amount the machine uses for a 32-bit shift: the low five bits. -/
def shamt (n : Int) : Nat := (n % 32).toNat

/-- C `a >> n` on a signed `int`: the arithmetic (sign-propagating) shift. -/
def shr32 (a n : Int) : Int := a >>> shamt n

/-- C `a << n` on `int`, wrapped to 32 bits. -/
def shl32 (a n : Int) : Int := wrap32 (a * 2 ^ shamt n)

/-! Constants of the source -/

abbrev CTL_STATE_IDLE : Int := 0
abbrev CTL_STATE_FETCH0 : Int := 1
abbrev CTL_STATE_FETCH1 : Int := 2
abbrev CTL_STATE_DEC0 : Int := 3
abbrev CTL_STATE_DEC1 : Int := 4
abbrev CTL_STATE_EXEC0 : Int := 5
abbrev CTL_STATE_EXEC1 : Int := 6

abbrev ADD : Int := 0
abbrev SUB : Int := 1
abbrev LSF : Int := 2
abbrev RSF : Int := 3
abbrev AND : Int := 4
abbrev OR : Int := 5
abbrev XOR : Int := 6
abbrev LHI : Int := 7
abbrev LD : Int := 8
abbrev ST : Int := 9
abbrev JLT : Int := 16
abbrev JLE : Int := 17
abbrev JEQ : Int := 18
abbrev JNE : Int := 19
abbrev JIN : Int := 20
abbrev HLT : Int := 24

/-! Data model -/

/-- The register snapshot `sp_registers_t`. -/
structure sp_registers_t where
  r : Int → Int
  pc : Int
  inst : Int
  opcode : Int
  dst : Int
  src0 : Int
  src1 : Int
  alu0 : Int
  alu1 : Int
  aluout : Int
  immediate : Int
  cycle_counter : Int
  ctl_state : Int

/-- Modelled from the spec: the memory `llsim_memory_t` of the simulation
substrate, whose code is not part of `src/`. It holds the stored words, the
read and write requests of the current step (`read`, `read_addr`, `write`,
`write_addr`, `datain`) and the word returned by the last read (`dataout`).
The spec gives the store 65536 words; an address outside `0..65535` is outside
its contract and is kept here as one more cell. -/
structure llsim_memory_t where
  data : Int → Int
  read : Bool
  read_addr : Int
  write : Bool
  write_addr : Int
  datain : Int
  dataout : Int

/-- The master structure `sp_t` (`sram`, `spro`, `sprn`, `start`), extended by
the global `btaken` that `sp_ctl` reads and writes and by the stop request
raised through `llsim_stop`. The fields `memory_image` and
`memory_image_size` are only used while loading and are the initial `data` of
`sram`. -/
structure sp_t where
  sram : llsim_memory_t
  spro : sp_registers_t
  sprn : sp_registers_t
  start : Int
  btaken : Int
  stop : Bool

/-- The all-zero register snapshot that `memset(sprn, 0, sizeof(*sprn))` leaves. -/
def zero_registers : sp_registers_t :=
  { r := fun _ => 0, pc := 0, inst := 0, opcode := 0, dst := 0, src0 := 0, src1 := 0,
    alu0 := 0, alu1 := 0, aluout := 0, immediate := 0, cycle_counter := 0, ctl_state := 0 }

/-! The memory interface -/

/-- Modelled from the spec: `llsim_mem_read`, the `issueRead(address)` of the
memory interface contract (code of the substrate, not under `src/`). -/
def llsim_mem_read (m : llsim_memory_t) (addr : Int) : llsim_memory_t :=
  { m with read := true, read_addr := addr }

/-- Modelled from the spec: `llsim_mem_set_datain`, the value part of
`issueWrite(address, value)` (code of the substrate, not under `src/`). -/
def llsim_mem_set_datain (m : llsim_memory_t) (v : Int) : llsim_memory_t :=
  { m with datain := v }

/-- Modelled from the spec: `llsim_mem_write`, the address part of
`issueWrite(address, value)` (code of the substrate, not under `src/`). -/
def llsim_mem_write (m : llsim_memory_t) (addr : Int) : llsim_memory_t :=
  { m with write := true, write_addr := addr }

/-- Modelled from the spec: `llsim_mem_extract_dataout`, the
`latestReadResult()` of the memory interface contract: the word made available
by the most recently issued read (code of the substrate, not under `src/`). -/
def llsim_mem_extract_dataout (m : llsim_memory_t) : Int := m.dataout

/-- Modelled from the spec: the clock edge of the memory (code of the
substrate, not under `src/`): a read issued in the step becomes the read
result of the following step, a write issued in the step is stored before the
following step. -/
def llsim_clock_memory (m : llsim_memory_t) : llsim_memory_t :=
  { m with
    dataout := if m.read then m.data m.read_addr else m.dataout
    data := if m.write then Function.update m.data m.write_addr m.datain else m.data }

/-! The code of `sp.c` -/

/-- The expression `(spro->inst >> 25) & 0x1f` of `CTL_STATE_DEC0`. -/
def decode_opcode (inst : Int) : Int := and32 (shr32 inst 25) 0x1f

/-- The expression `(spro->inst >> 22) & 0x7` of `CTL_STATE_DEC0`. -/
def decode_dst (inst : Int) : Int := and32 (shr32 inst 22) 0x7

/-- The expression `(spro->inst >> 19) & 0x7` of `CTL_STATE_DEC0`. -/
def decode_src0 (inst : Int) : Int := and32 (shr32 inst 19) 0x7

/-- The expression `(spro->inst >> 16) & 0x7` of `CTL_STATE_DEC0`. -/
def decode_src1 (inst : Int) : Int := and32 (shr32 inst 16) 0x7

/-- The two statements of `CTL_STATE_DEC0` that compute the immediate:
`immediate = inst & 0xffff`, then
`immediate += (int)((immediate & 0x8000) ? 0xffff0000 : 0x0)`, where
`(int)0xffff0000` is `-65536`. -/
def decode_immediate (inst : Int) : Int :=
  let immediate := and32 inst 0xffff
  add32 immediate (if and32 immediate 0x8000 ≠ 0 then -65536 else 0)

/-- The function `sp_reset`: zero the next snapshot. -/
def sp_reset (sp : sp_t) : sp_t := { sp with sprn := zero_registers }

/-- The statement `sprn->cycle_counter = spro->cycle_counter + 1` that opens
`sp_ctl`. -/
def count_cycle (sp : sp_t) : sp_t :=
  { sp with sprn := { sp.sprn with cycle_counter := add32 sp.spro.cycle_counter 1 } }

/-- The case `CTL_STATE_IDLE` of `sp_ctl`. -/
def ctl_idle (sp : sp_t) : sp_t :=
  let sp := { sp with sprn := { sp.sprn with pc := 0 } }
  if sp.start ≠ 0 then
    { sp with sprn := { sp.sprn with ctl_state := CTL_STATE_FETCH0 } }
  else sp

/-- The case `CTL_STATE_FETCH0` of `sp_ctl`. -/
def ctl_fetch0 (sp : sp_t) : sp_t :=
  let sp := { sp with btaken := 0 }
  let sp := { sp with sram := llsim_mem_read sp.sram sp.spro.pc }
  { sp with sprn := { sp.sprn with ctl_state := CTL_STATE_FETCH1 } }

/-- The case `CTL_STATE_FETCH1` of `sp_ctl`. -/
def ctl_fetch1 (sp : sp_t) : sp_t :=
  let sp := { sp with sprn := { sp.sprn with inst := llsim_mem_extract_dataout sp.sram } }
  { sp with sprn := { sp.sprn with ctl_state := CTL_STATE_DEC0 } }

/-- The case `CTL_STATE_DEC0` of `sp_ctl`. -/
def ctl_dec0 (sp : sp_t) : sp_t :=
  { sp with
    sprn := { sp.sprn with
      opcode := decode_opcode sp.spro.inst
      dst := decode_dst sp.spro.inst
      src0 := decode_src0 sp.spro.inst
      src1 := decode_src1 sp.spro.inst
      immediate := decode_immediate sp.spro.inst
      ctl_state := CTL_STATE_DEC1 } }

/-- The first `switch` of `CTL_STATE_DEC1`, over `spro->src0`. -/
def dec1_select_alu0 (sp : sp_t) : sp_t :=
  if sp.spro.src0 = 0 then { sp with sprn := { sp.sprn with alu0 := 0 } }
  else if sp.spro.src0 = 1 then { sp with sprn := { sp.sprn with alu0 := sp.spro.immediate } }
  else { sp with sprn := { sp.sprn with alu0 := sp.spro.r sp.spro.src0 } }

/-- The second `switch` of `CTL_STATE_DEC1`, over `spro->src1`. -/
def dec1_select_alu1 (sp : sp_t) : sp_t :=
  if sp.spro.src1 = 0 then { sp with sprn := { sp.sprn with alu1 := 0 } }
  else if sp.spro.src1 = 1 then { sp with sprn := { sp.sprn with alu1 := sp.spro.immediate } }
  else { sp with sprn := { sp.sprn with alu1 := sp.spro.r sp.spro.src1 } }

/-- The override of `CTL_STATE_DEC1` in the load-high-immediate case. Its test
reads `sprn->opcode`, the next snapshot. -/
def dec1_lhi_override (sp : sp_t) : sp_t :=
  if sp.sprn.opcode = LHI then
    { sp with sprn := { sp.sprn with alu0 := sp.spro.r sp.spro.dst, alu1 := sp.spro.immediate } }
  else sp

/-- The case `CTL_STATE_DEC1` of `sp_ctl`: the two operand switches, the
override, the next control state. -/
def ctl_dec1 (sp : sp_t) : sp_t :=
  let sp := dec1_lhi_override (dec1_select_alu1 (dec1_select_alu0 sp))
  { sp with sprn := { sp.sprn with ctl_state := CTL_STATE_EXEC0 } }

/-- The `switch (spro->opcode)` of `CTL_STATE_EXEC0`. -/
def exec0_switch (sp : sp_t) : sp_t :=
  if sp.spro.opcode = ADD then
    { sp with sprn := { sp.sprn with aluout := add32 sp.spro.alu0 sp.spro.alu1 } }
  else if sp.spro.opcode = SUB then
    { sp with sprn := { sp.sprn with aluout := sub32 sp.spro.alu0 sp.spro.alu1 } }
  else if sp.spro.opcode = LSF then
    { sp with sprn := { sp.sprn with aluout := shr32 sp.spro.alu0 sp.spro.alu1 } }
  else if sp.spro.opcode = RSF then
    { sp with sprn := { sp.sprn with aluout := shl32 sp.spro.alu0 sp.spro.alu1 } }
  else if sp.spro.opcode = AND then
    { sp with sprn := { sp.sprn with aluout := and32 sp.spro.alu0 sp.spro.alu1 } }
  else if sp.spro.opcode = OR then
    { sp with sprn := { sp.sprn with aluout := or32 sp.spro.alu0 sp.spro.alu1 } }
  else if sp.spro.opcode = XOR then
    { sp with sprn := { sp.sprn with aluout := xor32 sp.spro.alu0 sp.spro.alu1 } }
  else if sp.spro.opcode = LHI then
    { sp with sprn := { sp.sprn with
        aluout := or32 (and32 sp.spro.alu0 0xffff) (shl32 sp.spro.alu1 16) } }
  else if sp.spro.opcode = LD then
    { sp with sram := llsim_mem_read sp.sram sp.spro.alu1 }
  else if sp.spro.opcode = ST then sp
  else if sp.spro.opcode = JLT then
    { sp with sprn := { sp.sprn with aluout := if sp.spro.alu0 < sp.spro.alu1 then 1 else 0 } }
  else if sp.spro.opcode = JLE then
    { sp with sprn := { sp.sprn with aluout := if sp.spro.alu0 ≤ sp.spro.alu1 then 1 else 0 } }
  else if sp.spro.opcode = JEQ then
    { sp with sprn := { sp.sprn with aluout := if sp.spro.alu0 = sp.spro.alu1 then 1 else 0 } }
  else if sp.spro.opcode = JNE then
    { sp with sprn := { sp.sprn with aluout := if sp.spro.alu0 ≠ sp.spro.alu1 then 1 else 0 } }
  else if sp.spro.opcode = JIN then
    { sp with sprn := { sp.sprn with aluout := 1 } }
  else if sp.spro.opcode = HLT then sp
  else sp

/-- The case `CTL_STATE_EXEC0` of `sp_ctl`: the opcode switch, the next control
state. -/
def ctl_exec0 (sp : sp_t) : sp_t :=
  let sp := exec0_switch sp
  { sp with sprn := { sp.sprn with ctl_state := CTL_STATE_EXEC1 } }

/-- The body of the branch cases of `CTL_STATE_EXEC1`:
`btaken = 1; sprn->pc = spro->immediate; sprn->r[7] = spro->pc;`. -/
def exec1_take_branch (sp : sp_t) : sp_t :=
  { sp with
    btaken := 1
    sprn := { sp.sprn with
      pc := sp.spro.immediate
      r := Function.update sp.sprn.r 7 sp.spro.pc } }

/-- The `switch (spro->opcode)` of `CTL_STATE_EXEC1`. The call of `llsim_stop`
is recorded in `stop`. -/
def exec1_switch (sp : sp_t) : sp_t :=
  if sp.spro.opcode = ADD ∨ sp.spro.opcode = SUB ∨ sp.spro.opcode = LSF
      ∨ sp.spro.opcode = RSF ∨ sp.spro.opcode = AND ∨ sp.spro.opcode = OR
      ∨ sp.spro.opcode = XOR ∨ sp.spro.opcode = LHI then
    { sp with sprn := { sp.sprn with
        r := Function.update sp.sprn.r sp.spro.dst sp.spro.aluout } }
  else if sp.spro.opcode = LD then
    { sp with sprn := { sp.sprn with
        r := Function.update sp.sprn.r sp.spro.dst (llsim_mem_extract_dataout sp.sram) } }
  else if sp.spro.opcode = ST then
    { sp with sram := llsim_mem_write (llsim_mem_set_datain sp.sram sp.spro.alu0) sp.spro.alu1 }
  else if sp.spro.opcode = JLT ∨ sp.spro.opcode = JLE ∨ sp.spro.opcode = JEQ
      ∨ sp.spro.opcode = JNE ∨ sp.spro.opcode = JIN then
    if sp.spro.aluout = 1 then exec1_take_branch sp else sp
  else if sp.spro.opcode = HLT then
    { sp with start := 0, stop := true }
  else sp

/-- The statement `if (!btaken) sprn->pc = sprn->pc + 1;` of `CTL_STATE_EXEC1`.
It reads `sprn->pc`, the next snapshot. -/
def exec1_increment_pc (sp : sp_t) : sp_t :=
  if sp.btaken = 0 then
    { sp with sprn := { sp.sprn with pc := add32 sp.sprn.pc 1 } }
  else sp

/-- The case `CTL_STATE_EXEC1` of `sp_ctl`: the opcode switch, the increment of
the program counter, the next control state. -/
def ctl_exec1 (sp : sp_t) : sp_t :=
  let sp1 := exec1_increment_pc (exec1_switch sp)
  { sp1 with
    sprn := { sp1.sprn with
      ctl_state := if sp.spro.opcode = HLT then CTL_STATE_IDLE else CTL_STATE_FETCH0 } }

/-- The function `sp_ctl`: one step of the control state machine, the cycle
count followed by the `switch` over `spro->ctl_state`, whose case bodies are the
functions above. The diagnostic output to `cycle_trace_fp`, the trace printed
by `print_trace` and the file written by `dump_sram` are output only and are
left out. -/
def sp_ctl (sp : sp_t) : sp_t :=
  let sp := count_cycle sp
  if sp.spro.ctl_state = CTL_STATE_IDLE then ctl_idle sp
  else if sp.spro.ctl_state = CTL_STATE_FETCH0 then ctl_fetch0 sp
  else if sp.spro.ctl_state = CTL_STATE_FETCH1 then ctl_fetch1 sp
  else if sp.spro.ctl_state = CTL_STATE_DEC0 then ctl_dec0 sp
  else if sp.spro.ctl_state = CTL_STATE_DEC1 then ctl_dec1 sp
  else if sp.spro.ctl_state = CTL_STATE_EXEC0 then ctl_exec0 sp
  else if sp.spro.ctl_state = CTL_STATE_EXEC1 then ctl_exec1 sp
  else sp

/-- The function `sp_run`: what the substrate calls once per clock tick, with
`reset` the value of `llsim->reset`. -/
def sp_run (reset : Bool) (sp : sp_t) : sp_t :=
  if reset then sp_reset sp
  else sp_ctl { sp with sram := { sp.sram with read := false, write := false } }

/-! The clock of the substrate -/

/-- Modelled from the spec: the commit between two ticks (code of the
substrate, not under `src/`): the next snapshot becomes the current one and the
memory takes its clock edge. -/
def llsim_clock (sp : sp_t) : sp_t :=
  { sp with spro := sp.sprn, sram := llsim_clock_memory sp.sram }

/-- One clock tick without reset: `sp_run`, then the commit. -/
def tick (sp : sp_t) : sp_t := llsim_clock (sp_run false sp)

/-- Run `n` clock ticks without reset. -/
def run : Nat → sp_t → sp_t
  | 0, sp => sp
  | n + 1, sp => run n (tick sp)

/-! Field-wise forms of the case bodies

The definitions below restate, field by field, what the case bodies of `sp_ctl`
assign; the lemmas `ctl_dec1_eq`, `exec0_switch_eq` and `tick_exec1` prove that
the code computes exactly these values. -/

/-- The operand the two switches of `CTL_STATE_DEC1` select for the register
index `idx`: `0` for index 0, the immediate for index 1, the register content
otherwise. -/
def operand_select (r : Int → Int) (imm idx : Int) : Int :=
  if idx = 0 then 0 else if idx = 1 then imm else r idx

/-- The value of `sprn->alu0` after `CTL_STATE_DEC1`, with `r` the current
snapshot and `nopcode` the value of `sprn->opcode`. -/
def dec1_alu0 (r : sp_registers_t) (nopcode : Int) : Int :=
  if nopcode = LHI then r.r r.dst else operand_select r.r r.immediate r.src0

/-- The value of `sprn->alu1` after `CTL_STATE_DEC1`, with `r` the current
snapshot and `nopcode` the value of `sprn->opcode`. -/
def dec1_alu1 (r : sp_registers_t) (nopcode : Int) : Int :=
  if nopcode = LHI then r.immediate else operand_select r.r r.immediate r.src1

/-- The value `sprn->aluout` holds after the `switch` of `CTL_STATE_EXEC0`, as
a function of the current `opcode`, `alu0` and `alu1` and of the value `old`
that `aluout` held before. -/
def exec0_aluout (op alu0 alu1 old : Int) : Int :=
  if op = ADD then add32 alu0 alu1
  else if op = SUB then sub32 alu0 alu1
  else if op = LSF then shr32 alu0 alu1
  else if op = RSF then shl32 alu0 alu1
  else if op = AND then and32 alu0 alu1
  else if op = OR then or32 alu0 alu1
  else if op = XOR then xor32 alu0 alu1
  else if op = LHI then or32 (and32 alu0 0xffff) (shl32 alu1 16)
  else if op = JLT then (if alu0 < alu1 then 1 else 0)
  else if op = JLE then (if alu0 ≤ alu1 then 1 else 0)
  else if op = JEQ then (if alu0 = alu1 then 1 else 0)
  else if op = JNE then (if alu0 ≠ alu1 then 1 else 0)
  else if op = JIN then 1
  else old

/-- The opcodes whose `CTL_STATE_EXEC1` case writes `aluout` to `r[dst]`. -/
def writes_aluout (op : Int) : Prop :=
  op = ADD ∨ op = SUB ∨ op = LSF ∨ op = RSF ∨ op = AND ∨ op = OR ∨ op = XOR ∨ op = LHI

instance (op : Int) : Decidable (writes_aluout op) :=
  inferInstanceAs (Decidable (op = ADD ∨ op = SUB ∨ op = LSF ∨ op = RSF ∨ op = AND
    ∨ op = OR ∨ op = XOR ∨ op = LHI))

/-- The opcodes of the branch case of `CTL_STATE_EXEC1`. -/
def is_branch (op : Int) : Prop :=
  op = JLT ∨ op = JLE ∨ op = JEQ ∨ op = JNE ∨ op = JIN

instance (op : Int) : Decidable (is_branch op) :=
  inferInstanceAs (Decidable (op = JLT ∨ op = JLE ∨ op = JEQ ∨ op = JNE ∨ op = JIN))

/-- The next snapshot after `CTL_STATE_EXEC1`, field by field: `o` is the
current snapshot, `n` the next one, `dataout` the word the memory returns and
`btaken` the value of the flag before the step. -/
def exec1_registers (o n : sp_registers_t) (dataout btaken : Int) : sp_registers_t :=
  { n with
    cycle_counter := add32 o.cycle_counter 1
    r :=
      if writes_aluout o.opcode then Function.update n.r o.dst o.aluout
      else if o.opcode = LD then Function.update n.r o.dst dataout
      else if is_branch o.opcode ∧ o.aluout = 1 then Function.update n.r 7 o.pc
      else n.r
    pc :=
      if is_branch o.opcode ∧ o.aluout = 1 then o.immediate
      else if btaken = 0 then add32 n.pc 1
      else n.pc
    ctl_state := if o.opcode = HLT then CTL_STATE_IDLE else CTL_STATE_FETCH0 }

/-- The operand `CTL_STATE_DEC1` stages in `alu0` for the instruction word `w`,
with `n` the register snapshot the instruction starts from. -/
def instr_alu0 (n : sp_registers_t) (w : Int) : Int :=
  if decode_opcode w = LHI then n.r (decode_dst w)
  else operand_select n.r (decode_immediate w) (decode_src0 w)

/-- The operand `CTL_STATE_DEC1` stages in `alu1` for the instruction word `w`,
with `n` the register snapshot the instruction starts from. -/
def instr_alu1 (n : sp_registers_t) (w : Int) : Int :=
  if decode_opcode w = LHI then decode_immediate w
  else operand_select n.r (decode_immediate w) (decode_src1 w)

/-- The snapshot four ticks after a `CTL_STATE_FETCH0` step that fetched the
word `w`: `n` is the next snapshot and `cc` the cycle count before the fetch. -/
def dec1_registers (n : sp_registers_t) (cc w : Int) : sp_registers_t :=
  { n with
    cycle_counter := add32 (add32 (add32 (add32 cc 1) 1) 1) 1
    inst := w
    opcode := decode_opcode w
    dst := decode_dst w
    src0 := decode_src0 w
    src1 := decode_src1 w
    immediate := decode_immediate w
    alu0 := instr_alu0 n w
    alu1 := instr_alu1 n w
    ctl_state := CTL_STATE_EXEC0 }

/-- A committed state (next snapshot equal to the current one) about to fetch
at `pc`, with register file `r` and memory content `image`; the staging
registers are zero and no memory request is pending. -/
def fetch_state (image : Int → Int) (r : Int → Int) (pc : Int) : sp_t :=
  { sram := { data := image, read := false, read_addr := 0, write := false,
              write_addr := 0, datain := 0, dataout := 0 }
    spro := { zero_registers with r := r, pc := pc, ctl_state := CTL_STATE_FETCH0 }
    sprn := { zero_registers with r := r, pc := pc, ctl_state := CTL_STATE_FETCH0 }
    start := 1
    btaken := 0
    stop := false }

/-- A state in `CTL_STATE_DEC0` whose instruction register holds `w`. -/
def dec0_state (w : Int) : sp_t :=
  { sram := { data := fun _ => 0, read := false, read_addr := 0, write := false,
              write_addr := 0, datain := 0, dataout := 0 }
    spro := { zero_registers with inst := w, ctl_state := CTL_STATE_DEC0 }
    sprn := { zero_registers with inst := w, ctl_state := CTL_STATE_DEC0 }
    start := 1
    btaken := 0
    stop := false }

/-- The relation a compare-and-branch opcode tests on its two operands, as the
spec words it: signed `<` for JLT, `<=` for JLE, `==` for JEQ, `!=` for JNE. -/
def branch_relation (op a0 a1 : Int) : Prop :=
  (op = JLT ∧ a0 < a1) ∨ (op = JLE ∧ a0 ≤ a1) ∨ (op = JEQ ∧ a0 = a1) ∨ (op = JNE ∧ a0 ≠ a1)

instance (op a0 a1 : Int) : Decidable (branch_relation op a0 a1) :=
  inferInstanceAs (Decidable ((op = JLT ∧ a0 < a1) ∨ (op = JLE ∧ a0 ≤ a1)
    ∨ (op = JEQ ∧ a0 = a1) ∨ (op = JNE ∧ a0 ≠ a1)))

/-- The snapshot five ticks after a `CTL_STATE_FETCH0` step that fetched the
word `w`: `n` is the next snapshot and `cc` the cycle count before the fetch. -/
def exec0_registers (n : sp_registers_t) (cc w : Int) : sp_registers_t :=
  { dec1_registers n cc w with
    cycle_counter := add32 (add32 (add32 (add32 (add32 cc 1) 1) 1) 1) 1
    aluout := exec0_aluout (decode_opcode w) (instr_alu0 n w) (instr_alu1 n w) n.aluout
    ctl_state := CTL_STATE_EXEC1 }

/-- The effective address of a load or store as the spec words it: the
sign-extended immediate when `src1 == 1`, otherwise the value of register
`src1`, index 0 reading as 0. -/
def effective_address (r : Int → Int) (w : Int) : Int :=
  if decode_src1 w = 1 then decode_immediate w
  else if decode_src1 w = 0 then 0
  else r (decode_src1 w)

/-- A state about to fetch, at address 10, the word `0x20130064`
(`JLT r2, r3, 100`) with `r[2] = -1` and `r[3] = 4`. -/
def jlt_state : sp_t :=
  fetch_state (fun a => if a = 10 then 0x20130064 else 0)
    (fun i => if i = 2 then -1 else if i = 3 then 4 else 0) 10

/-- A state about to fetch, at address 10, the word `0x28000064` (`JIN 100`),
with the flag `btaken` and `aluout` holding stale values. -/
def jin_state : sp_t :=
  { fetch_state (fun a => if a = 10 then 0x28000064 else 0) (fun _ => 0) 10 with
    btaken := 1
    spro := { zero_registers with pc := 10, aluout := 0, ctl_state := CTL_STATE_FETCH0 }
    sprn := { zero_registers with pc := 10, aluout := 0, ctl_state := CTL_STATE_FETCH0 } }

/-- A state about to fetch, at address 4, the word `0x11030000`
(`LD r4 = MEM[r3]`) with `r[3] = 20` and `MEM[20] = 77`. -/
def ld_state : sp_t :=
  fetch_state (fun a => if a = 4 then 0x11030000 else if a = 20 then 77 else 0)
    (fun i => if i = 3 then 20 else 0) 4

/-- A state about to fetch, at address 4, the word `0x12110030`
(`ST MEM[48] = r2`, the address being the immediate) with `r[2] = 9`. -/
def st_state : sp_t :=
  fetch_state (fun a => if a = 4 then 0x12110030 else 0)
    (fun i => if i = 2 then 9 else 0) 4

/-- A state about to fetch, at address 0, the two words `0x12130000`
(`ST MEM[r3] = r2`) and `0x11430000` (`LD r5 = MEM[r3]`), with `r[2] = 1234`
and `r[3] = 100`. -/
def round_trip_state : sp_t :=
  fetch_state (fun a => if a = 0 then 0x12130000 else if a = 1 then 0x11430000 else 0)
    (fun i => if i = 2 then 1234 else if i = 3 then 100 else 0) 0

/-- A state in `CTL_STATE_EXEC1` of a HLT instruction fetched at address 2,
with `r[2] = 5`, `r[3] = 12` and one memory word set. -/
def hlt_state : sp_t :=
  { sram := { data := fun a => if a = 2 then 0x30000000 else 0, read := false,
              read_addr := 2, write := false, write_addr := 0, datain := 0,
              dataout := 0x30000000 }
    spro := { zero_registers with
      r := fun i => if i = 2 then 5 else if i = 3 then 12 else 0
      pc := 2, inst := 0x30000000, opcode := HLT, cycle_counter := 18
      ctl_state := CTL_STATE_EXEC1 }
    sprn := { zero_registers with
      r := fun i => if i = 2 then 5 else if i = 3 then 12 else 0
      pc := 2, inst := 0x30000000, opcode := HLT, cycle_counter := 18
      ctl_state := CTL_STATE_EXEC1 }
    start := 1
    btaken := 0
    stop := false }

/-- The zeroed reset state: both snapshots as `sp_reset` and the commit leave
them, the memory `m`, the start flag `start`, the global `btaken` holding
`btaken` (which `sp_reset` does not touch) and no stop requested. -/
def reset_state (m : llsim_memory_t) (start btaken : Int) : sp_t :=
  { sram := m, spro := zero_registers, sprn := zero_registers, start := start,
    btaken := btaken, stop := false }

/-- A memory holding the words of `image`, with no request pending. -/
def memory_of (image : Int → Int) : llsim_memory_t :=
  { data := image, read := false, read_addr := 0, write := false, write_addr := 0,
    datain := 0, dataout := 0 }

/-- The sign extension of a 16-bit field as the spec words it: `f - 65536`
when bit 15 of `f` is set, `f` when it is clear (for `0 <= f < 65536`). -/
def sign_extend16 (f : Int) : Int := if 32768 ≤ f then f - 65536 else f

/-- The memory image of the end-to-end scenario with `imm2 = 0xFFFE` (that is
`-2`): `ADD r2 = imm 5`, `ADD r3 = r2 + imm2`, `HLT`. -/
def scenario_image : Int → Int :=
  fun a => if a = 0 then 0x00880005 else if a = 1 then 0x00D1FFFE
    else if a = 2 then 0x30000000 else 0

/-- A memory image that writes register 0 and then reads it through
load-high-immediate: `0x00080005` (`ADD r0 = imm 5`), `0x0E000001`
(`LHI r0, 1`), `0x30000000` (`HLT`). -/
def r0_image : Int → Int :=
  fun a => if a = 0 then 0x00080005 else if a = 1 then 0x0E000001
    else if a = 2 then 0x30000000 else 0

/-- A state in `CTL_STATE_EXEC1` of an ADD (opcode 0) with `btaken = 0`, all
fields of both snapshots zero except the control state and the program counter
of the next snapshot, which holds `npc`. -/
def exec1_state (npc : Int) : sp_t :=
  { sram := memory_of (fun _ => 0)
    spro := { zero_registers with ctl_state := CTL_STATE_EXEC1 }
    sprn := { zero_registers with pc := npc, ctl_state := CTL_STATE_EXEC1 }
    start := 1
    btaken := 0
    stop := false }

/-- A state in `CTL_STATE_DEC1` with `src0 = 0`, `dst = 2`, `r[2] = 9` in the
current snapshot, whose next snapshot differs from it only in `opcode`, which
holds `nopcode`. -/
def dec1_state (nopcode : Int) : sp_t :=
  { sram := memory_of (fun _ => 0)
    spro := { zero_registers with
      r := fun i => if i = 2 then 9 else 0
      dst := 2
      ctl_state := CTL_STATE_DEC1 }
    sprn := { zero_registers with
      r := fun i => if i = 2 then 9 else 0
      dst := 2
      opcode := nopcode
      ctl_state := CTL_STATE_DEC1 }
    start := 1
    btaken := 0
    stop := false }

/-- A state about to fetch, at address 3, the word `0x0311FFFF`
(`SUB r4 = r2 - imm` with immediate `-1`), with `r[2] = 2147483647`. -/
def sub_state : sp_t :=
  fetch_state (fun a => if a = 3 then 0x0311FFFF else 0)
    (fun i => if i = 2 then 2147483647 else 0) 3

/-- A state in `CTL_STATE_EXEC0` whose snapshots hold the opcode `op` and the
operands `a0`, `a1`, all other fields zero. -/
def exec0_state (op a0 a1 : Int) : sp_t :=
  { sram := memory_of (fun _ => 0)
    spro := { zero_registers with
      opcode := op, alu0 := a0, alu1 := a1, ctl_state := CTL_STATE_EXEC0 }
    sprn := { zero_registers with
      opcode := op, alu0 := a0, alu1 := a1, ctl_state := CTL_STATE_EXEC0 }
    start := 1
    btaken := 0
    stop := false }

/-- A state about to fetch, at address 0, the word `0x0EBFABCD` (`LHI r2` with
immediate field `0xABCD`, `src0 = 7`, `src1 = 7`), with `r[2] = 0x12345678`. -/
def lhi_state : sp_t :=
  fetch_state (fun a => if a = 0 then 0x0EBFABCD else 0)
    (fun i => if i = 2 then 0x12345678 else 0) 0

/-- A state about to fetch, at address 7, the word `0x1E9B1234`, whose opcode
field is the undefined code 15 (`dst = 2`, `src0 = 3`, `src1 = 3`), entered
with stale `aluout = 1` and `btaken = 1`, with `r[2] = 11` and `r[3] = 22`. -/
def unknown_opcode_state : sp_t :=
  { sram := memory_of (fun a => if a = 7 then 0x1E9B1234 else 0)
    spro := { zero_registers with
      r := fun i => if i = 2 then 11 else if i = 3 then 22 else 0
      pc := 7, aluout := 1, ctl_state := CTL_STATE_FETCH0 }
    sprn := { zero_registers with
      r := fun i => if i = 2 then 11 else if i = 3 then 22 else 0
      pc := 7, aluout := 1, ctl_state := CTL_STATE_FETCH0 }
    start := 1
    btaken := 1
    stop := false }

/-- A memory image that writes register 1 and then reads it through
load-high-immediate: `0x00480005` (`ADD r1 = imm 5`), `0x0E400002`
(`LHI r1, 2`), `0x30000000` (`HLT`). -/
def r1_image : Int → Int :=
  fun a => if a = 0 then 0x00480005 else if a = 1 then 0x0E400002
    else if a = 2 then 0x30000000 else 0

/-- A state about to fetch, at address 10, the word `0x21130064`
(`JLT r2, r3, 100` with `dst = 4`), with `r[2] = -1`, `r[3] = 4`, `r[4] = 9`. -/
def jlt_dst_state : sp_t :=
  fetch_state (fun a => if a = 10 then 0x21130064 else 0)
    (fun i => if i = 2 then -1 else if i = 3 then 4 else if i = 4 then 9 else 0) 10

/-- The zeroed reset state on a memory that holds the word 0 everywhere; the
word 0 decodes to `ADD r0 = r0 + r0`, so the program never halts and never
branches. -/
def zero_program_state : sp_t := reset_state (memory_of (fun _ => 0)) 1 0

/-- The zeroed reset state on a memory whose word 0 is `0x28008000`, a JIN whose
immediate field `0x8000` sign-extends to `-32768`. -/
def jin_negative_state : sp_t :=
  reset_state (memory_of (fun a => if a = 0 then 0x28008000 else 0)) 1 0

/-- C `a / b` on `int`: the quotient truncated toward zero. -/
def div32 (a b : Int) : Int := wrap32 (Int.tdiv a b)

/-- The instruction index `print_trace` prints in its header:
`spro->cycle_counter/6-1`. -/
def trace_index (spro : sp_registers_t) : Int := sub32 (div32 spro.cycle_counter 6) 1

/-- The relation between what two steps leave in one field of the next
snapshot: `a1`, `a2` are the values after the two steps and `b1`, `b2` the
values the field held in the two next snapshots passed in. Either the steps
leave the same value, or neither step has assigned the field and each value is
the one passed in. -/
def same_or_kept (a1 a2 b1 b2 : Int) : Prop := a1 = a2 ∨ (a1 = b1 ∧ a2 = b2)

instance (a1 a2 b1 b2 : Int) : Decidable (same_or_kept a1 a2 b1 b2) :=
  inferInstanceAs (Decidable (a1 = a2 ∨ (a1 = b1 ∧ a2 = b2)))

/-- The relation `same_or_kept` on every field of the register snapshot:
`a1`, `a2` are the next snapshots after two steps, `b1`, `b2` the next
snapshots passed in. -/
def same_fields (a1 a2 b1 b2 : sp_registers_t) : Prop :=
  (∀ i, same_or_kept (a1.r i) (a2.r i) (b1.r i) (b2.r i)) ∧
  same_or_kept a1.pc a2.pc b1.pc b2.pc ∧
  same_or_kept a1.inst a2.inst b1.inst b2.inst ∧
  same_or_kept a1.opcode a2.opcode b1.opcode b2.opcode ∧
  same_or_kept a1.dst a2.dst b1.dst b2.dst ∧
  same_or_kept a1.src0 a2.src0 b1.src0 b2.src0 ∧
  same_or_kept a1.src1 a2.src1 b1.src1 b2.src1 ∧
  same_or_kept a1.alu0 a2.alu0 b1.alu0 b2.alu0 ∧
  same_or_kept a1.alu1 a2.alu1 b1.alu1 b2.alu1 ∧
  same_or_kept a1.aluout a2.aluout b1.aluout b2.aluout ∧
  same_or_kept a1.immediate a2.immediate b1.immediate b2.immediate ∧
  same_or_kept a1.cycle_counter a2.cycle_counter b1.cycle_counter b2.cycle_counter ∧
  same_or_kept a1.ctl_state a2.ctl_state b1.ctl_state b2.ctl_state

/-- The relation between two steps, from the states `s1`, `s2` to the states
`t1`, `t2`: the same memory state, start flag, `btaken` and stop request after
the steps, the current snapshots untouched, and `same_fields` on the next
snapshots. -/
def same_step (t1 t2 s1 s2 : sp_t) : Prop :=
  t1.sram = t2.sram ∧ t1.start = t2.start ∧ t1.btaken = t2.btaken ∧ t1.stop = t2.stop ∧
  t1.spro = s1.spro ∧ t2.spro = s2.spro ∧
  same_fields t1.sprn t2.sprn s1.sprn s2.sprn

/-- A state in `CTL_STATE_EXEC1` of an ADD (opcode 0) with `dst = 2`,
`aluout = 9` and `btaken = 0`, whose next snapshot has `opcode = 0`, `pc = 3`
and the value `v` in every register and in every other field. -/
def exec1_filled_state (v : Int) : sp_t :=
  { sram := memory_of (fun _ => 0)
    spro := { zero_registers with dst := 2, aluout := 9, ctl_state := CTL_STATE_EXEC1 }
    sprn := { r := fun _ => v, pc := 3, inst := v, opcode := 0, dst := v, src0 := v,
              src1 := v, alu0 := v, alu1 := v, aluout := v, immediate := v,
              cycle_counter := v, ctl_state := v }
    start := 1
    btaken := 0
    stop := false }

/-- The zeroed reset state on a memory whose word 0 is `0x28000000` (`JIN 0`):
the program jumps to address 0 forever, so every fetch is at address 0 and no
HLT is ever executed. -/
def jin_loop_state : sp_t :=
  reset_state (memory_of (fun a => if a = 0 then 0x28000000 else 0)) 1 0

/-! Lemmas: integer arithmetic -/

theorem wrap32_of_range (x : Int) (h1 : -2147483648 ≤ x) (h2 : x < 2147483648) :
    wrap32 x = x := by
  unfold wrap32; omega

theorem toU32_cast (x : Int) : ((toU32 x : Nat) : Int) = x % 4294967296 := by
  unfold toU32; omega

theorem toU32_lit (n : Nat) (h : n < 4294967296) : toU32 (n : Int) = n := by
  unfold toU32; omega

theorem and32_1f (a : Int) : and32 a 0x1f = a % 32 := by
  have h : toU32 a &&& 31 = toU32 a % 32 := Nat.and_pow_two_sub_one_eq_mod (toU32 a) 5
  have hc := toU32_cast a
  have hl : toU32 0x1f = 31 := toU32_lit 31 (by norm_num)
  unfold and32 wrap32
  rw [hl, h]
  push_cast
  omega

theorem and32_7 (a : Int) : and32 a 0x7 = a % 8 := by
  have h : toU32 a &&& 7 = toU32 a % 8 := Nat.and_pow_two_sub_one_eq_mod (toU32 a) 3
  have hc := toU32_cast a
  have hl : toU32 0x7 = 7 := toU32_lit 7 (by norm_num)
  unfold and32 wrap32
  rw [hl, h]
  push_cast
  omega

theorem and32_ffff (a : Int) : and32 a 0xffff = a % 65536 := by
  have h : toU32 a &&& 65535 = toU32 a % 65536 := Nat.and_pow_two_sub_one_eq_mod (toU32 a) 16
  have hc := toU32_cast a
  have hl : toU32 0xffff = 65535 := toU32_lit 65535 (by norm_num)
  unfold and32 wrap32
  rw [hl, h]
  push_cast
  omega

theorem and32_8000 (f : Int) (h0 : 0 ≤ f) (h1 : f < 65536) :
    and32 f 0x8000 = if 32768 ≤ f then 32768 else 0 := by
  have hl : toU32 0x8000 = 2 ^ 15 := toU32_lit 32768 (by norm_num)
  have hf : toU32 f = f.toNat := by unfold toU32; omega
  unfold and32
  rw [hl, Nat.and_two_pow, hf]
  have hlt : f.toNat < 65536 := by omega
  by_cases hb : 32768 ≤ f
  · have : f.toNat.testBit 15 = true := by
      rw [Nat.testBit_to_div_mod]
      simp; omega
    simp [this, hb, wrap32]
  · have : f.toNat.testBit 15 = false := by
      rw [Nat.testBit_to_div_mod]
      simp; omega
    simp [this, hb, wrap32]

theorem shr32_25 (a : Int) : shr32 a 25 = a / 33554432 := by
  have h : shamt 25 = 25 := by decide
  rw [shr32, h, Int.shiftRight_eq_div_pow]; rfl

theorem shr32_22 (a : Int) : shr32 a 22 = a / 4194304 := by
  have h : shamt 22 = 22 := by decide
  rw [shr32, h, Int.shiftRight_eq_div_pow]; rfl

theorem shr32_19 (a : Int) : shr32 a 19 = a / 524288 := by
  have h : shamt 19 = 19 := by decide
  rw [shr32, h, Int.shiftRight_eq_div_pow]; rfl

theorem shr32_16 (a : Int) : shr32 a 16 = a / 65536 := by
  have h : shamt 16 = 16 := by decide
  rw [shr32, h, Int.shiftRight_eq_div_pow]; rfl

theorem decode_opcode_eq (w : Int) : decode_opcode w = w / 33554432 % 32 := by
  rw [decode_opcode, shr32_25, and32_1f]

theorem decode_dst_eq (w : Int) : decode_dst w = w / 4194304 % 8 := by
  rw [decode_dst, shr32_22, and32_7]

theorem decode_src0_eq (w : Int) : decode_src0 w = w / 524288 % 8 := by
  rw [decode_src0, shr32_19, and32_7]

theorem decode_src1_eq (w : Int) : decode_src1 w = w / 65536 % 8 := by
  rw [decode_src1, shr32_16, and32_7]

theorem decode_immediate_eq (w : Int) :
    decode_immediate w = if 32768 ≤ w % 65536 then w % 65536 - 65536 else w % 65536 := by
  have h0 : 0 ≤ w % 65536 := Int.emod_nonneg _ (by norm_num)
  have h1 : w % 65536 < 65536 := Int.emod_lt_of_pos _ (by norm_num)
  simp only [decode_immediate]
  rw [and32_ffff, and32_8000 _ h0 h1]
  by_cases hb : 32768 ≤ w % 65536
  · simp only [hb, if_true]
    rw [if_pos (by norm_num)]
    unfold add32 wrap32; omega
  · simp only [hb, if_false]
    rw [if_neg (by norm_num)]
    unfold add32 wrap32; omega

/-! Lemmas: one step of the state machine -/

theorem sp_ctl_idle (s : sp_t) (h : s.spro.ctl_state = 0) :
    sp_ctl s = ctl_idle (count_cycle s) := by
  simp [sp_ctl, count_cycle, h]

theorem sp_ctl_fetch0 (s : sp_t) (h : s.spro.ctl_state = 1) :
    sp_ctl s = ctl_fetch0 (count_cycle s) := by
  simp [sp_ctl, count_cycle, h]

theorem sp_ctl_fetch1 (s : sp_t) (h : s.spro.ctl_state = 2) :
    sp_ctl s = ctl_fetch1 (count_cycle s) := by
  simp [sp_ctl, count_cycle, h]

theorem sp_ctl_dec0 (s : sp_t) (h : s.spro.ctl_state = 3) :
    sp_ctl s = ctl_dec0 (count_cycle s) := by
  simp [sp_ctl, count_cycle, h]

theorem sp_ctl_dec1 (s : sp_t) (h : s.spro.ctl_state = 4) :
    sp_ctl s = ctl_dec1 (count_cycle s) := by
  simp [sp_ctl, count_cycle, h]

theorem sp_ctl_exec0 (s : sp_t) (h : s.spro.ctl_state = 5) :
    sp_ctl s = ctl_exec0 (count_cycle s) := by
  simp [sp_ctl, count_cycle, h]

theorem sp_ctl_exec1 (s : sp_t) (h : s.spro.ctl_state = 6) :
    sp_ctl s = ctl_exec1 (count_cycle s) := by
  simp [sp_ctl, count_cycle, h]

theorem opcode_cases (op : Int) :
    op = 0 ∨ op = 1 ∨ op = 2 ∨ op = 3 ∨ op = 4 ∨ op = 5 ∨ op = 6 ∨ op = 7 ∨ op = 8 ∨ op = 9
      ∨ op = 16 ∨ op = 17 ∨ op = 18 ∨ op = 19 ∨ op = 20 ∨ op = 24
      ∨ (op ≠ 0 ∧ op ≠ 1 ∧ op ≠ 2 ∧ op ≠ 3 ∧ op ≠ 4 ∧ op ≠ 5 ∧ op ≠ 6 ∧ op ≠ 7 ∧ op ≠ 8
          ∧ op ≠ 9 ∧ op ≠ 16 ∧ op ≠ 17 ∧ op ≠ 18 ∧ op ≠ 19 ∧ op ≠ 20 ∧ op ≠ 24) := by
  by_cases h0 : op = 0
  · exact Or.inl h0
  by_cases h1 : op = 1
  · tauto
  by_cases h2 : op = 2
  · tauto
  by_cases h3 : op = 3
  · tauto
  by_cases h4 : op = 4
  · tauto
  by_cases h5 : op = 5
  · tauto
  by_cases h6 : op = 6
  · tauto
  by_cases h7 : op = 7
  · tauto
  by_cases h8 : op = 8
  · tauto
  by_cases h9 : op = 9
  · tauto
  by_cases h16 : op = 16
  · tauto
  by_cases h17 : op = 17
  · tauto
  by_cases h18 : op = 18
  · tauto
  by_cases h19 : op = 19
  · tauto
  by_cases h20 : op = 20
  · tauto
  by_cases h24 : op = 24
  · tauto
  · tauto

theorem exec0_switch_eq (s : sp_t) :
    exec0_switch s =
      { s with
        sram := if s.spro.opcode = 8 then llsim_mem_read s.sram s.spro.alu1 else s.sram
        sprn := { s.sprn with
          aluout := exec0_aluout s.spro.opcode s.spro.alu0 s.spro.alu1 s.sprn.aluout } } := by
  rcases opcode_cases s.spro.opcode with
    h | h | h | h | h | h | h | h | h | h | h | h | h | h | h | h | h
  all_goals simp [exec0_switch, exec0_aluout, h]

theorem exec1_switch_eq (s : sp_t) :
    exec1_switch s =
      { s with
        sram :=
          if s.spro.opcode = 9 then
            llsim_mem_write (llsim_mem_set_datain s.sram s.spro.alu0) s.spro.alu1
          else s.sram
        start := if s.spro.opcode = 24 then 0 else s.start
        stop := if s.spro.opcode = 24 then true else s.stop
        btaken := if is_branch s.spro.opcode ∧ s.spro.aluout = 1 then 1 else s.btaken
        sprn := { s.sprn with
          r :=
            if writes_aluout s.spro.opcode then
              Function.update s.sprn.r s.spro.dst s.spro.aluout
            else if s.spro.opcode = 8 then
              Function.update s.sprn.r s.spro.dst s.sram.dataout
            else if is_branch s.spro.opcode ∧ s.spro.aluout = 1 then
              Function.update s.sprn.r 7 s.spro.pc
            else s.sprn.r
          pc :=
            if is_branch s.spro.opcode ∧ s.spro.aluout = 1 then s.spro.immediate
            else s.sprn.pc } } := by
  rcases opcode_cases s.spro.opcode with
    h | h | h | h | h | h | h | h | h | h | h | h | h | h | h | h | h
  all_goals by_cases ha : s.spro.aluout = 1 <;>
    simp [exec1_switch, exec1_take_branch, writes_aluout, is_branch,
      llsim_mem_extract_dataout, h, ha]

theorem tick_idle (s : sp_t) (h : s.spro.ctl_state = 0) :
    tick s =
      { s with
        sram := llsim_clock_memory { s.sram with read := false, write := false }
        spro := { s.sprn with
          cycle_counter := add32 s.spro.cycle_counter 1
          pc := 0
          ctl_state := if s.start ≠ 0 then 1 else s.sprn.ctl_state }
        sprn := { s.sprn with
          cycle_counter := add32 s.spro.cycle_counter 1
          pc := 0
          ctl_state := if s.start ≠ 0 then 1 else s.sprn.ctl_state } } := by
  by_cases hs : s.start = 0 <;>
    simp [tick, sp_run, sp_ctl_idle, ctl_idle, count_cycle, llsim_clock, h, hs]

theorem tick_fetch0 (s : sp_t) (h : s.spro.ctl_state = 1) :
    tick s =
      { s with
        btaken := 0
        sram := llsim_clock_memory
          (llsim_mem_read { s.sram with read := false, write := false } s.spro.pc)
        spro := { s.sprn with cycle_counter := add32 s.spro.cycle_counter 1, ctl_state := 2 }
        sprn := { s.sprn with cycle_counter := add32 s.spro.cycle_counter 1, ctl_state := 2 } } := by
  simp [tick, sp_run, sp_ctl_fetch0, ctl_fetch0, count_cycle, llsim_clock, h]

theorem tick_fetch1 (s : sp_t) (h : s.spro.ctl_state = 2) :
    tick s =
      { s with
        sram := llsim_clock_memory { s.sram with read := false, write := false }
        spro := { s.sprn with
          cycle_counter := add32 s.spro.cycle_counter 1
          inst := s.sram.dataout
          ctl_state := 3 }
        sprn := { s.sprn with
          cycle_counter := add32 s.spro.cycle_counter 1
          inst := s.sram.dataout
          ctl_state := 3 } } := by
  simp [tick, sp_run, sp_ctl_fetch1, ctl_fetch1, count_cycle, llsim_clock, h,
    llsim_mem_extract_dataout]

theorem tick_dec0 (s : sp_t) (h : s.spro.ctl_state = 3) :
    tick s =
      { s with
        sram := llsim_clock_memory { s.sram with read := false, write := false }
        spro := { s.sprn with
          cycle_counter := add32 s.spro.cycle_counter 1
          opcode := decode_opcode s.spro.inst
          dst := decode_dst s.spro.inst
          src0 := decode_src0 s.spro.inst
          src1 := decode_src1 s.spro.inst
          immediate := decode_immediate s.spro.inst
          ctl_state := 4 }
        sprn := { s.sprn with
          cycle_counter := add32 s.spro.cycle_counter 1
          opcode := decode_opcode s.spro.inst
          dst := decode_dst s.spro.inst
          src0 := decode_src0 s.spro.inst
          src1 := decode_src1 s.spro.inst
          immediate := decode_immediate s.spro.inst
          ctl_state := 4 } } := by
  simp [tick, sp_run, sp_ctl_dec0, ctl_dec0, count_cycle, llsim_clock, h]

theorem ctl_dec1_eq (s : sp_t) :
    ctl_dec1 s =
      { s with
        sprn := { s.sprn with
          alu0 := dec1_alu0 s.spro s.sprn.opcode
          alu1 := dec1_alu1 s.spro s.sprn.opcode
          ctl_state := 5 } } := by
  by_cases ho : s.sprn.opcode = 7 <;> by_cases h0 : s.spro.src0 = 0 <;>
    by_cases h1 : s.spro.src0 = 1 <;> by_cases h2 : s.spro.src1 = 0 <;>
    by_cases h3 : s.spro.src1 = 1 <;>
    simp [ctl_dec1, dec1_lhi_override, dec1_select_alu0, dec1_select_alu1, dec1_alu0,
      dec1_alu1, operand_select, ho, h0, h1, h2, h3]

theorem tick_dec1 (s : sp_t) (h : s.spro.ctl_state = 4) :
    tick s =
      { s with
        sram := llsim_clock_memory { s.sram with read := false, write := false }
        spro := { s.sprn with
          cycle_counter := add32 s.spro.cycle_counter 1
          alu0 := dec1_alu0 s.spro s.sprn.opcode
          alu1 := dec1_alu1 s.spro s.sprn.opcode
          ctl_state := 5 }
        sprn := { s.sprn with
          cycle_counter := add32 s.spro.cycle_counter 1
          alu0 := dec1_alu0 s.spro s.sprn.opcode
          alu1 := dec1_alu1 s.spro s.sprn.opcode
          ctl_state := 5 } } := by
  simp [tick, sp_run, sp_ctl_dec1, ctl_dec1_eq, count_cycle, llsim_clock, h]

theorem tick_exec0 (s : sp_t) (h : s.spro.ctl_state = 5) :
    tick s =
      { s with
        sram := llsim_clock_memory
          (if s.spro.opcode = 8 then
            llsim_mem_read { s.sram with read := false, write := false } s.spro.alu1
           else { s.sram with read := false, write := false })
        spro := { s.sprn with
          cycle_counter := add32 s.spro.cycle_counter 1
          aluout := exec0_aluout s.spro.opcode s.spro.alu0 s.spro.alu1 s.sprn.aluout
          ctl_state := 6 }
        sprn := { s.sprn with
          cycle_counter := add32 s.spro.cycle_counter 1
          aluout := exec0_aluout s.spro.opcode s.spro.alu0 s.spro.alu1 s.sprn.aluout
          ctl_state := 6 } } := by
  simp [tick, sp_run, sp_ctl_exec0, ctl_exec0, exec0_switch_eq, count_cycle, llsim_clock, h]

theorem tick_exec1 (s : sp_t) (h : s.spro.ctl_state = 6) :
    tick s =
      { s with
        sram := llsim_clock_memory
          (if s.spro.opcode = 9 then
            llsim_mem_write
              (llsim_mem_set_datain { s.sram with read := false, write := false } s.spro.alu0)
              s.spro.alu1
           else { s.sram with read := false, write := false })
        start := if s.spro.opcode = 24 then 0 else s.start
        stop := if s.spro.opcode = 24 then true else s.stop
        btaken := if is_branch s.spro.opcode ∧ s.spro.aluout = 1 then 1 else s.btaken
        spro := exec1_registers s.spro s.sprn s.sram.dataout s.btaken
        sprn := exec1_registers s.spro s.sprn s.sram.dataout s.btaken } := by
  by_cases hb : s.btaken = 0 <;> by_cases ht : is_branch s.spro.opcode ∧ s.spro.aluout = 1 <;>
    simp [tick, sp_run, sp_ctl_exec1, ctl_exec1, exec1_switch_eq, exec1_increment_pc,
      exec1_registers, count_cycle, llsim_clock, h, hb, ht]

/-! Lemmas: several steps -/

theorem run_succ_tick (n : Nat) (s : sp_t) : run (n + 1) s = tick (run n s) := by
  induction n generalizing s with
  | zero => rfl
  | succ k ih =>
    show run (k + 1) (tick s) = tick (run k (tick s))
    exact ih (tick s)

theorem run_add (m n : Nat) (s : sp_t) : run (m + n) s = run n (run m s) := by
  induction m generalizing s with
  | zero => simp [run]
  | succ k ih =>
    have h : k + 1 + n = (k + n) + 1 := by omega
    rw [h]
    show run (k + n) (tick s) = run n (run k (tick s))
    exact ih (tick s)

theorem run_decode (s : sp_t) (h : s.spro.ctl_state = 1) :
    run 4 s =
      { s with
        btaken := 0
        sram := { s.sram with
          read := false
          write := false
          read_addr := s.spro.pc
          dataout := s.sram.data s.spro.pc }
        spro := dec1_registers s.sprn s.spro.cycle_counter (s.sram.data s.spro.pc)
        sprn := dec1_registers s.sprn s.spro.cycle_counter (s.sram.data s.spro.pc) } := by
  simp [run, tick_fetch0, tick_fetch1, tick_dec0, tick_dec1, h, llsim_clock_memory,
    llsim_mem_read, dec1_registers, dec1_alu0, dec1_alu1, instr_alu0, instr_alu1]

theorem run_exec0 (s : sp_t) (h : s.spro.ctl_state = 1) :
    (run 5 s).spro.ctl_state = 6 ∧
    (run 5 s).spro.opcode = decode_opcode (s.sram.data s.spro.pc) ∧
    (run 5 s).spro.cycle_counter =
      add32 (add32 (add32 (add32 (add32 s.spro.cycle_counter 1) 1) 1) 1) 1 := by
  have e : run 5 s = tick (run 4 s) := run_succ_tick 4 s
  rw [e, run_decode s h, tick_exec0 _ (by simp [dec1_registers])]
  simp [dec1_registers]


theorem run_exec0_state (s : sp_t) (h : s.spro.ctl_state = 1) :
    run 5 s =
      { s with
        btaken := 0
        sram :=
          if decode_opcode (s.sram.data s.spro.pc) = 8 then
            { s.sram with
              read := true
              write := false
              read_addr :=
                (dec1_registers s.sprn s.spro.cycle_counter (s.sram.data s.spro.pc)).alu1
              dataout := s.sram.data
                (dec1_registers s.sprn s.spro.cycle_counter (s.sram.data s.spro.pc)).alu1 }
          else
            { s.sram with
              read := false
              write := false
              read_addr := s.spro.pc
              dataout := s.sram.data s.spro.pc }
        spro := exec0_registers s.sprn s.spro.cycle_counter (s.sram.data s.spro.pc)
        sprn := exec0_registers s.sprn s.spro.cycle_counter (s.sram.data s.spro.pc) } := by
  have e : run 5 s = tick (run 4 s) := run_succ_tick 4 s
  rw [e, run_decode s h, tick_exec0 _ (by simp [dec1_registers])]
  by_cases h8 : decode_opcode (s.sram.data s.spro.pc) = 8 <;>
    simp [exec0_registers, dec1_registers, llsim_clock_memory, llsim_mem_read, h8]

theorem run_instruction (s : sp_t) (w : Int) (h : s.spro.ctl_state = 1)
    (hw : s.sram.data s.spro.pc = w) :
    run 6 s =
      { sram :=
          if decode_opcode w = 9 then
            { s.sram with
              data := Function.update s.sram.data (instr_alu1 s.sprn w) (instr_alu0 s.sprn w)
              read := false
              read_addr := s.spro.pc
              write := true
              write_addr := instr_alu1 s.sprn w
              datain := instr_alu0 s.sprn w
              dataout := w }
          else if decode_opcode w = 8 then
            { s.sram with
              read := false
              write := false
              read_addr := instr_alu1 s.sprn w
              dataout := s.sram.data (instr_alu1 s.sprn w) }
          else
            { s.sram with
              read := false
              write := false
              read_addr := s.spro.pc
              dataout := w }
        spro :=
          exec1_registers (exec0_registers s.sprn s.spro.cycle_counter w)
            (exec0_registers s.sprn s.spro.cycle_counter w)
            (if decode_opcode w = 8 then s.sram.data (instr_alu1 s.sprn w) else w) 0
        sprn :=
          exec1_registers (exec0_registers s.sprn s.spro.cycle_counter w)
            (exec0_registers s.sprn s.spro.cycle_counter w)
            (if decode_opcode w = 8 then s.sram.data (instr_alu1 s.sprn w) else w) 0
        start := if decode_opcode w = 24 then 0 else s.start
        btaken :=
          if is_branch (decode_opcode w)
              ∧ (exec0_registers s.sprn s.spro.cycle_counter w).aluout = 1 then 1
          else 0
        stop := if decode_opcode w = 24 then true else s.stop } := by
  have e : run 6 s = tick (run 5 s) := run_succ_tick 5 s
  have x6 : (run 5 s).spro.ctl_state = 6 := (run_exec0 s h).1
  rw [e, tick_exec1 _ x6, run_exec0_state s h, hw]
  have p1 : (exec0_registers s.sprn s.spro.cycle_counter w).opcode = decode_opcode w := by
    simp [exec0_registers, dec1_registers]
  have p2 : (exec0_registers s.sprn s.spro.cycle_counter w).alu0 = instr_alu0 s.sprn w := by
    simp [exec0_registers, dec1_registers, instr_alu0]
  have p3 : (exec0_registers s.sprn s.spro.cycle_counter w).alu1 = instr_alu1 s.sprn w := by
    simp [exec0_registers, dec1_registers, instr_alu1]
  have p4 : (dec1_registers s.sprn s.spro.cycle_counter w).alu1 = instr_alu1 s.sprn w := by
    simp [dec1_registers, instr_alu1]
  by_cases h8 : decode_opcode w = 8
  · simp only [p1, p2, p3, p4, h8]
    simp [llsim_clock_memory]
  · by_cases h9 : decode_opcode w = 9
    · simp only [p1, p2, p3, p4, h9]
      simp [llsim_clock_memory, llsim_mem_write, llsim_mem_set_datain]
    · simp only [p1, p2, p3, p4]
      simp [llsim_clock_memory, h8, h9]

theorem exec0_registers_opcode (n : sp_registers_t) (cc w : Int) :
    (exec0_registers n cc w).opcode = decode_opcode w := by
  simp [exec0_registers, dec1_registers]

theorem exec0_registers_dst (n : sp_registers_t) (cc w : Int) :
    (exec0_registers n cc w).dst = decode_dst w := by
  simp [exec0_registers, dec1_registers]

theorem exec0_registers_immediate (n : sp_registers_t) (cc w : Int) :
    (exec0_registers n cc w).immediate = decode_immediate w := by
  simp [exec0_registers, dec1_registers]

theorem exec0_registers_pc (n : sp_registers_t) (cc w : Int) :
    (exec0_registers n cc w).pc = n.pc := by
  simp [exec0_registers, dec1_registers]

theorem exec0_registers_r (n : sp_registers_t) (cc w : Int) :
    (exec0_registers n cc w).r = n.r := by
  simp [exec0_registers, dec1_registers]

theorem exec0_registers_alu0 (n : sp_registers_t) (cc w : Int) :
    (exec0_registers n cc w).alu0 = instr_alu0 n w := by
  simp [exec0_registers, dec1_registers]

theorem exec0_registers_alu1 (n : sp_registers_t) (cc w : Int) :
    (exec0_registers n cc w).alu1 = instr_alu1 n w := by
  simp [exec0_registers, dec1_registers]

theorem exec0_registers_aluout (n : sp_registers_t) (cc w : Int) :
    (exec0_registers n cc w).aluout =
      exec0_aluout (decode_opcode w) (instr_alu0 n w) (instr_alu1 n w) n.aluout := by
  simp [exec0_registers]

theorem exec0_registers_cycle_counter (n : sp_registers_t) (cc w : Int) :
    (exec0_registers n cc w).cycle_counter =
      add32 (add32 (add32 (add32 (add32 cc 1) 1) 1) 1) 1 := by
  simp [exec0_registers]

theorem dec1_registers_alu1 (n : sp_registers_t) (cc w : Int) :
    (dec1_registers n cc w).alu1 = instr_alu1 n w := by
  simp [dec1_registers]

theorem run6_spro (s : sp_t) (w : Int) (h : s.spro.ctl_state = 1)
    (hw : s.sram.data s.spro.pc = w) :
    (run 6 s).spro =
      exec1_registers (exec0_registers s.sprn s.spro.cycle_counter w)
        (exec0_registers s.sprn s.spro.cycle_counter w)
        (if decode_opcode w = 8 then s.sram.data (instr_alu1 s.sprn w) else w) 0 := by
  rw [run_instruction s w h hw]

theorem run6_sprn (s : sp_t) (w : Int) (h : s.spro.ctl_state = 1)
    (hw : s.sram.data s.spro.pc = w) :
    (run 6 s).sprn = (run 6 s).spro := by
  rw [run_instruction s w h hw]

theorem run6_btaken (s : sp_t) (w : Int) (h : s.spro.ctl_state = 1)
    (hw : s.sram.data s.spro.pc = w) :
    (run 6 s).btaken =
      if is_branch (decode_opcode w)
          ∧ exec0_aluout (decode_opcode w) (instr_alu0 s.sprn w) (instr_alu1 s.sprn w)
              s.sprn.aluout = 1 then 1
      else 0 := by
  rw [run_instruction s w h hw, exec0_registers_aluout]

theorem run6_start (s : sp_t) (w : Int) (h : s.spro.ctl_state = 1)
    (hw : s.sram.data s.spro.pc = w) :
    (run 6 s).start = if decode_opcode w = 24 then 0 else s.start := by
  rw [run_instruction s w h hw]

theorem run6_stop (s : sp_t) (w : Int) (h : s.spro.ctl_state = 1)
    (hw : s.sram.data s.spro.pc = w) :
    (run 6 s).stop = if decode_opcode w = 24 then true else s.stop := by
  rw [run_instruction s w h hw]

theorem run6_sram (s : sp_t) (w : Int) (h : s.spro.ctl_state = 1)
    (hw : s.sram.data s.spro.pc = w) :
    (run 6 s).sram =
      if decode_opcode w = 9 then
        { s.sram with
          data := Function.update s.sram.data (instr_alu1 s.sprn w) (instr_alu0 s.sprn w)
          read := false
          read_addr := s.spro.pc
          write := true
          write_addr := instr_alu1 s.sprn w
          datain := instr_alu0 s.sprn w
          dataout := w }
      else if decode_opcode w = 8 then
        { s.sram with
          read := false
          write := false
          read_addr := instr_alu1 s.sprn w
          dataout := s.sram.data (instr_alu1 s.sprn w) }
      else
        { s.sram with
          read := false
          write := false
          read_addr := s.spro.pc
          dataout := w } := by
  rw [run_instruction s w h hw]

theorem run5_sram (s : sp_t) (w : Int) (h : s.spro.ctl_state = 1)
    (hw : s.sram.data s.spro.pc = w) :
    (run 5 s).sram =
      if decode_opcode w = 8 then
        { s.sram with
          read := true
          write := false
          read_addr := instr_alu1 s.sprn w
          dataout := s.sram.data (instr_alu1 s.sprn w) }
      else
        { s.sram with
          read := false
          write := false
          read_addr := s.spro.pc
          dataout := w } := by
  rw [run_exec0_state s h, hw]
  simp only [dec1_registers_alu1]

theorem run6_r (s : sp_t) (w : Int) (h : s.spro.ctl_state = 1)
    (hw : s.sram.data s.spro.pc = w) :
    (run 6 s).spro.r =
      if writes_aluout (decode_opcode w) then
        Function.update s.sprn.r (decode_dst w)
          (exec0_aluout (decode_opcode w) (instr_alu0 s.sprn w) (instr_alu1 s.sprn w)
            s.sprn.aluout)
      else if decode_opcode w = LD then
        Function.update s.sprn.r (decode_dst w) (s.sram.data (instr_alu1 s.sprn w))
      else if is_branch (decode_opcode w)
          ∧ exec0_aluout (decode_opcode w) (instr_alu0 s.sprn w) (instr_alu1 s.sprn w)
              s.sprn.aluout = 1 then
        Function.update s.sprn.r 7 s.sprn.pc
      else s.sprn.r := by
  rw [run6_spro s w h hw]
  by_cases h8 : decode_opcode w = 8 <;>
    simp [exec1_registers, exec0_registers_opcode, exec0_registers_dst, exec0_registers_r,
      exec0_registers_aluout, exec0_registers_pc, h8]

theorem run6_pc (s : sp_t) (w : Int) (h : s.spro.ctl_state = 1)
    (hw : s.sram.data s.spro.pc = w) :
    (run 6 s).spro.pc =
      if is_branch (decode_opcode w)
          ∧ exec0_aluout (decode_opcode w) (instr_alu0 s.sprn w) (instr_alu1 s.sprn w)
              s.sprn.aluout = 1 then
        decode_immediate w
      else add32 s.sprn.pc 1 := by
  rw [run6_spro s w h hw]
  simp [exec1_registers, exec0_registers_opcode, exec0_registers_immediate,
    exec0_registers_aluout, exec0_registers_pc]

theorem run6_ctl_state (s : sp_t) (w : Int) (h : s.spro.ctl_state = 1)
    (hw : s.sram.data s.spro.pc = w) :
    (run 6 s).spro.ctl_state = if decode_opcode w = HLT then 0 else 1 := by
  rw [run6_spro s w h hw]
  simp [exec1_registers, exec0_registers_opcode]

theorem run6_data (s : sp_t) (w : Int) (h : s.spro.ctl_state = 1)
    (hw : s.sram.data s.spro.pc = w) :
    (run 6 s).sram.data =
      if decode_opcode w = ST then
        Function.update s.sram.data (instr_alu1 s.sprn w) (instr_alu0 s.sprn w)
      else s.sram.data := by
  rw [run6_sram s w h hw]
  by_cases h9 : decode_opcode w = 9
  · rw [if_pos h9, if_pos h9]
  · rw [if_neg h9, if_neg h9]
    by_cases h8 : decode_opcode w = 8
    · rw [if_pos h8]
    · rw [if_neg h8]

theorem or32_field (imm2 : Int) (h0 : 0 ≤ imm2) (h1 : imm2 < 65536) :
    or32 0x00D10000 imm2 = 13697024 + imm2 := by
  have hl : toU32 0x00D10000 = 2 ^ 16 * 209 := by decide
  have hf : toU32 imm2 = imm2.toNat := by unfold toU32; omega
  have hlt : imm2.toNat < 2 ^ 16 := by omega
  unfold or32
  rw [hl, hf, ← Nat.mul_add_lt_is_or hlt 209]
  unfold wrap32
  push_cast
  omega

theorem idle_forever (k : Nat) (x : sp_t) (hi : x.spro.ctl_state = 0)
    (hn : x.sprn.ctl_state = 0) (hst : x.start = 0) :
    (run (k + 1) x).spro.ctl_state = 0 ∧ (run (k + 1) x).spro.pc = 0 ∧
    (run (k + 1) x).spro.r = x.sprn.r ∧ (run (k + 1) x).sprn = (run (k + 1) x).spro ∧
    (run (k + 1) x).sram.data = x.sram.data ∧
    (run (k + 1) x).sram.read = false ∧ (run (k + 1) x).sram.write = false ∧
    (run (k + 1) x).start = 0 := by
  induction k generalizing x with
  | zero =>
    have e : run 1 x = tick x := rfl
    rw [e, tick_idle x hi]
    simp [llsim_clock_memory, hst, hn]
  | succ k ih =>
    have e : run (k + 1 + 1) x = run (k + 1) (tick x) := rfl
    have t := tick_idle x hi
    have h1 : (tick x).spro.ctl_state = 0 := by rw [t]; simp [hst, hn]
    have h2 : (tick x).sprn.ctl_state = 0 := by rw [t]; simp [hst, hn]
    have h3 : (tick x).start = 0 := by rw [t]; exact hst
    have h4 : (tick x).sprn.r = x.sprn.r := by rw [t]
    have h5 : (tick x).sram.data = x.sram.data := by rw [t]; simp [llsim_clock_memory]
    have := ih (tick x) h1 h2 h3
    rw [e]
    rw [h4, h5] at this
    exact this

theorem tick_reset_state (m : llsim_memory_t) (st b : Int) (hst : st ≠ 0) :
    tick (reset_state m st b) =
      { sram := llsim_clock_memory { m with read := false, write := false }
        spro := { zero_registers with cycle_counter := 1, ctl_state := 1 }
        sprn := { zero_registers with cycle_counter := 1, ctl_state := 1 }
        start := st
        btaken := b
        stop := false } := by
  rw [tick_idle (reset_state m st b) rfl]
  simp [reset_state, hst, zero_registers, add32, wrap32]

theorem tick_tick_reset_state (m : llsim_memory_t) (st b : Int) (hst : st ≠ 0) :
    tick (tick (reset_state m st b)) = tick (tick (reset_state m st 0)) := by
  rw [tick_reset_state m st b hst, tick_reset_state m st 0 hst]
  rw [tick_fetch0 _ rfl, tick_fetch0 _ rfl]


/-- Every state the commit produces is committed: its two snapshots are equal.
This is the hypothesis `s.sprn = s.spro` of the instruction-level theorems. -/
theorem tick_committed (s : sp_t) : (tick s).sprn = (tick s).spro := rfl

/-! Lemmas: bit patterns, memory requests, cycle counts -/

theorem toU32_wrap32_natCast (n : Nat) (h : n < 4294967296) : toU32 (wrap32 (n : Int)) = n := by
  unfold toU32 wrap32; omega

theorem toU32_lt (x : Int) : toU32 x < 2 ^ 32 := by
  unfold toU32; omega

theorem toU32_and32 (a b : Int) : toU32 (and32 a b) = toU32 a &&& toU32 b := by
  unfold and32
  exact toU32_wrap32_natCast _ (Nat.and_lt_two_pow _ (toU32_lt b))

theorem toU32_or32 (a b : Int) : toU32 (or32 a b) = toU32 a ||| toU32 b := by
  unfold or32
  exact toU32_wrap32_natCast _ (Nat.or_lt_two_pow (toU32_lt a) (toU32_lt b))

theorem toU32_xor32 (a b : Int) : toU32 (xor32 a b) = toU32 a ^^^ toU32 b := by
  unfold xor32
  exact toU32_wrap32_natCast _ (Nat.xor_lt_two_pow (toU32_lt a) (toU32_lt b))

theorem wrap32_range (x : Int) : -2147483648 ≤ wrap32 x ∧ wrap32 x < 2147483648 := by
  unfold wrap32; omega

theorem sp_ctl_exec0_aluout (s : sp_t) (h : s.spro.ctl_state = 5) :
    (sp_ctl s).sprn.aluout =
      exec0_aluout s.spro.opcode s.spro.alu0 s.spro.alu1 s.sprn.aluout := by
  rw [sp_ctl_exec0 s h, ctl_exec0, exec0_switch_eq]
  simp [count_cycle]

theorem toU32_wrap32 (x : Int) : toU32 (wrap32 x) = toU32 x := by
  unfold toU32 wrap32; omega

theorem toU32_mul_natCast (a : Int) (c : Nat) :
    toU32 (a * (c : Int)) = (toU32 a * c) % 2 ^ 32 := by
  have h1 : (((toU32 a * c) % 2 ^ 32 : Nat) : Int) = (a * (c : Int)) % 4294967296 := by
    push_cast
    rw [toU32_cast]
    conv_lhs => rw [Int.mul_emod, Int.emod_emod, ← Int.mul_emod]
  unfold toU32 at h1 ⊢
  rw [← h1, Int.toNat_natCast]

theorem shamt_of_range (n : Int) (h0 : 0 ≤ n) (h1 : n < 32) : shamt n = n.toNat := by
  unfold shamt; omega

theorem shr32_eq_div (a n : Int) (h0 : 0 ≤ n) (h1 : n < 32) :
    shr32 a n = a / 2 ^ n.toNat := by
  rw [shr32, shamt_of_range n h0 h1, Int.shiftRight_eq_div_pow]
  push_cast; rfl

theorem toU32_shr32_nonneg (a n : Int) (ha0 : 0 ≤ a) (ha1 : a < 4294967296)
    (h0 : 0 ≤ n) (h1 : n < 32) :
    toU32 (shr32 a n) = toU32 a >>> n.toNat := by
  obtain ⟨m, rfl⟩ := Int.eq_ofNat_of_zero_le ha0
  have hm : m < 4294967296 := by omega
  rw [shr32_eq_div _ n h0 h1, Nat.shiftRight_eq_div_pow, toU32_lit m hm]
  have e : (m : Int) / 2 ^ n.toNat = ((m / 2 ^ n.toNat : Nat) : Int) := by push_cast; rfl
  rw [e]
  apply toU32_lit
  exact lt_of_le_of_lt (Nat.div_le_self _ _) hm

theorem toU32_shl32 (a n : Int) (h0 : 0 ≤ n) (h1 : n < 32) :
    toU32 (shl32 a n) = (toU32 a <<< n.toNat) % 2 ^ 32 := by
  rw [shl32, shamt_of_range n h0 h1, toU32_wrap32, Nat.shiftLeft_eq]
  have e : a * (2 : Int) ^ n.toNat = a * ((2 ^ n.toNat : Nat) : Int) := by push_cast; rfl
  rw [e, toU32_mul_natCast]

theorem lhi_pattern (x imm : Int) (f : Nat)
    (himm : toU32 imm % 65536 = f) :
    toU32 (or32 (and32 x 0xffff) (shl32 imm 16)) = (toU32 x &&& 0xffff) ||| (f <<< 16) := by
  have hl : toU32 0xffff = 0xffff := by decide
  have h16 : ((16 : Int)).toNat = 16 := by decide
  rw [toU32_or32, toU32_and32, hl, toU32_shl32 imm 16 (by norm_num) (by norm_num), h16,
    Nat.shiftLeft_eq, Nat.shiftLeft_eq]
  have e : toU32 imm * 2 ^ 16 % 2 ^ 32 = f * 2 ^ 16 := by omega
  rw [e]

theorem lhi_pattern_halves (a f : Nat) :
    ((a &&& 0xffff) ||| (f <<< 16)) / 65536 = f ∧
    ((a &&& 0xffff) ||| (f <<< 16)) % 65536 = a % 65536 := by
  have h1 : a &&& 0xffff = a % 2 ^ 16 := Nat.and_pow_two_sub_one_eq_mod a 16
  have hlt : a % 2 ^ 16 < 2 ^ 16 := Nat.mod_lt _ (by norm_num)
  have h2 : 2 ^ 16 * f + a % 2 ^ 16 = 2 ^ 16 * f ||| a % 2 ^ 16 := Nat.mul_add_lt_is_or hlt f
  rw [h1, Nat.shiftLeft_eq, Nat.or_comm, Nat.mul_comm f, ← h2]
  omega

theorem ctl_state_cases (c : Int) :
    c = 0 ∨ c = 1 ∨ c = 2 ∨ c = 3 ∨ c = 4 ∨ c = 5 ∨ c = 6
      ∨ (c ≠ 0 ∧ c ≠ 1 ∧ c ≠ 2 ∧ c ≠ 3 ∧ c ≠ 4 ∧ c ≠ 5 ∧ c ≠ 6) := by
  omega

theorem sp_ctl_other (s : sp_t)
    (h : s.spro.ctl_state ≠ 0 ∧ s.spro.ctl_state ≠ 1 ∧ s.spro.ctl_state ≠ 2
      ∧ s.spro.ctl_state ≠ 3 ∧ s.spro.ctl_state ≠ 4 ∧ s.spro.ctl_state ≠ 5
      ∧ s.spro.ctl_state ≠ 6) :
    sp_ctl s = count_cycle s := by
  obtain ⟨h0, h1, h2, h3, h4, h5, h6⟩ := h
  simp [sp_ctl, count_cycle, h0, h1, h2, h3, h4, h5, h6]

theorem sp_run_sram (s : sp_t) :
    (sp_run false s).sram =
      if s.spro.ctl_state = 6 ∧ s.spro.opcode = 9 then
        llsim_mem_write
          (llsim_mem_set_datain { s.sram with read := false, write := false } s.spro.alu0)
          s.spro.alu1
      else if s.spro.ctl_state = 1 then
        llsim_mem_read { s.sram with read := false, write := false } s.spro.pc
      else if s.spro.ctl_state = 5 ∧ s.spro.opcode = 8 then
        llsim_mem_read { s.sram with read := false, write := false } s.spro.alu1
      else { s.sram with read := false, write := false } := by
  rcases ctl_state_cases s.spro.ctl_state with h | h | h | h | h | h | h | h
  · by_cases hst : s.start = 0 <;>
      simp [sp_run, sp_ctl_idle, ctl_idle, count_cycle, h, hst]
  · simp [sp_run, sp_ctl_fetch0, ctl_fetch0, count_cycle, h]
  · simp [sp_run, sp_ctl_fetch1, ctl_fetch1, count_cycle, h]
  · simp [sp_run, sp_ctl_dec0, ctl_dec0, count_cycle, h]
  · simp [sp_run, sp_ctl_dec1, ctl_dec1_eq, count_cycle, h]
  · by_cases h8 : s.spro.opcode = 8 <;>
      simp [sp_run, sp_ctl_exec0, ctl_exec0, exec0_switch_eq, count_cycle, h, h8]
  · by_cases h9 : s.spro.opcode = 9
    · by_cases hb : s.btaken = 0 <;>
        simp [sp_run, sp_ctl_exec1, ctl_exec1, exec1_switch_eq, exec1_increment_pc,
          count_cycle, is_branch, h, h9, hb]
    · by_cases hb : s.btaken = 0 <;>
        by_cases ht : is_branch s.spro.opcode ∧ s.spro.aluout = 1 <;>
        simp [sp_run, sp_ctl_exec1, ctl_exec1, exec1_switch_eq, exec1_increment_pc,
          count_cycle, h, h9, hb, ht]
  · have e := sp_ctl_other { s with sram := { s.sram with read := false, write := false } } h
    obtain ⟨h0, h1, h2, h3, h4, h5, h6⟩ := h
    simp [sp_run, e, count_cycle, h1, h5, h6]

theorem sp_run_write (s : sp_t) :
    (sp_run false s).sram.write = decide (s.spro.ctl_state = 6 ∧ s.spro.opcode = 9) ∧
    (sp_run false s).sram.data = s.sram.data ∧
    (s.spro.ctl_state = 6 ∧ s.spro.opcode = 9 →
      (sp_run false s).sram.write_addr = s.spro.alu1 ∧
      (sp_run false s).sram.datain = s.spro.alu0) := by
  have e := sp_run_sram s
  by_cases hst : s.spro.ctl_state = 6 ∧ s.spro.opcode = 9
  · rw [if_pos hst] at e
    rw [e]
    simp [llsim_mem_write, llsim_mem_set_datain, hst]
  · rw [if_neg hst] at e
    by_cases h1 : s.spro.ctl_state = 1
    · rw [if_pos h1] at e
      rw [e]
      simp [llsim_mem_read, hst]
    · rw [if_neg h1] at e
      by_cases h5 : s.spro.ctl_state = 5 ∧ s.spro.opcode = 8
      · rw [if_pos h5] at e
        rw [e]
        simp [llsim_mem_read, hst]
      · rw [if_neg h5] at e
        rw [e]
        simp [hst]

theorem tick_data (s : sp_t) :
    (tick s).sram.data =
      if s.spro.ctl_state = 6 ∧ s.spro.opcode = 9 then
        Function.update s.sram.data s.spro.alu1 s.spro.alu0
      else s.sram.data := by
  obtain ⟨hw, hd, ha⟩ := sp_run_write s
  have e : (tick s).sram.data =
      if (sp_run false s).sram.write then
        Function.update (sp_run false s).sram.data (sp_run false s).sram.write_addr
          (sp_run false s).sram.datain
      else (sp_run false s).sram.data := rfl
  rw [e, hw, hd]
  by_cases hst : s.spro.ctl_state = 6 ∧ s.spro.opcode = 9
  · rw [(ha hst).1, (ha hst).2]; simp [hst]
  · simp [hst]

theorem run_ctl_state_lt (s : sp_t) (h : s.spro.ctl_state = 1) (k : Nat) (hk : k < 6) :
    (run k s).spro.ctl_state = (k : Int) + 1 := by
  have hk' : k = 0 ∨ k = 1 ∨ k = 2 ∨ k = 3 ∨ k = 4 ∨ k = 5 := by omega
  rcases hk' with rfl | rfl | rfl | rfl | rfl | rfl
  · simpa [run] using h
  · simp [run, tick_fetch0, h]
  · simp [run, tick_fetch0, tick_fetch1, h]
  · simp [run, tick_fetch0, tick_fetch1, tick_dec0, h]
  · rw [run_decode s h]; rfl
  · rw [(run_exec0 s h).1]; rfl

theorem sp_ctl_exec1_sprn (s : sp_t) (h : s.spro.ctl_state = 6) :
    (sp_ctl s).sprn = exec1_registers s.spro s.sprn s.sram.dataout s.btaken := by
  by_cases hb : s.btaken = 0 <;> by_cases ht : is_branch s.spro.opcode ∧ s.spro.aluout = 1 <;>
    simp [sp_ctl_exec1, ctl_exec1, exec1_switch_eq, exec1_increment_pc,
      exec1_registers, count_cycle, h, hb, ht]

theorem tick_cycle_counter (s : sp_t) :
    (tick s).spro.cycle_counter = add32 s.spro.cycle_counter 1 := by
  rcases ctl_state_cases s.spro.ctl_state with h | h | h | h | h | h | h | h
  · rw [tick_idle s h]
  · rw [tick_fetch0 s h]
  · rw [tick_fetch1 s h]
  · rw [tick_dec0 s h]
  · rw [tick_dec1 s h]
  · rw [tick_exec0 s h]
  · rw [tick_exec1 s h]; rfl
  · have e := sp_ctl_other { s with sram := { s.sram with read := false, write := false } } h
    simp [tick, sp_run, llsim_clock, e, count_cycle]

theorem run_cycle_counter (k : Nat) (s : sp_t) :
    (run (k + 1) s).spro.cycle_counter = wrap32 (s.spro.cycle_counter + ((k : Int) + 1)) := by
  induction k with
  | zero =>
    have e : run (0 + 1) s = tick s := rfl
    rw [e, tick_cycle_counter]
    simp [add32]
  | succ j ih =>
    rw [run_succ_tick (j + 1) s, tick_cycle_counter, ih]
    unfold add32 wrap32
    push_cast
    omega

theorem fetch_after_instructions (x : sp_t) (hx : x.spro.ctl_state = 1) (n : Nat)
    (hno : ∀ j, j < n → (run (6 * j + 5) x).spro.opcode ≠ 24) :
    (run (6 * n) x).spro.ctl_state = 1 := by
  induction n with
  | zero => exact hx
  | succ k ih =>
    have hy := ih (fun j hj => hno j (by omega))
    have e : 6 * (k + 1) = 6 * k + 6 := by omega
    rw [e, run_add (6 * k) 6 x, run6_ctl_state (run (6 * k) x) _ hy rfl]
    have ho := (run_exec0 (run (6 * k) x) hy).2.1
    rw [← run_add (6 * k) 5 x] at ho
    have hk := hno k (by omega)
    rw [ho] at hk
    rw [if_neg hk]

theorem exec1_after_instructions (x : sp_t) (hx : x.spro.ctl_state = 1) (n : Nat)
    (hno : ∀ j, j < n → (run (6 * j + 5) x).spro.opcode ≠ 24) :
    (run (6 * n + 5) x).spro.ctl_state = 6 := by
  have hy := fetch_after_instructions x hx n hno
  rw [run_add (6 * n) 5 x]
  exact (run_exec0 (run (6 * n) x) hy).1

theorem zero_program (n : Nat) :
    (run (6 * n) (tick zero_program_state)).spro.ctl_state = 1 ∧
    (run (6 * n) (tick zero_program_state)).sprn = (run (6 * n) (tick zero_program_state)).spro ∧
    (run (6 * n) (tick zero_program_state)).sram.data = (fun _ => 0) ∧
    (run (6 * n) (tick zero_program_state)).spro.pc = wrap32 n := by
  induction n with
  | zero =>
    have t := tick_reset_state (memory_of (fun _ => 0)) 1 0 (by decide)
    have e : run (6 * 0) (tick zero_program_state) = tick zero_program_state := rfl
    rw [e]
    unfold zero_program_state
    rw [t]
    refine ⟨rfl, rfl, ?_, ?_⟩
    · simp [llsim_clock_memory, memory_of]
    · decide
  | succ k ih =>
    obtain ⟨hc, hn, hd, hp⟩ := ih
    have e : 6 * (k + 1) = 6 * k + 6 := by omega
    rw [e, run_add (6 * k) 6]
    generalize run (6 * k) (tick zero_program_state) = y at hc hn hd hp
    have hw : y.sram.data y.spro.pc = 0 := by rw [hd]
    have o1 : decode_opcode 0 = 0 := by decide
    have hnb : ¬ is_branch (decode_opcode 0) := by rw [o1]; decide
    refine ⟨?_, run6_sprn y 0 hc hw, ?_, ?_⟩
    · rw [run6_ctl_state y 0 hc hw, o1]; rfl
    · rw [run6_data y 0 hc hw, o1, hd]; rfl
    · rw [run6_pc y 0 hc hw, if_neg (fun c => hnb c.1), hn, hp]
      unfold add32 wrap32
      push_cast
      omega

theorem run_succ (k : Nat) (s : sp_t) : run (k + 1) s = run k (tick s) := rfl

theorem sp_ctl_dec0_eq (s : sp_t) (h : s.spro.ctl_state = 3) :
    sp_ctl s =
      { s with
        sprn := { s.sprn with
          cycle_counter := add32 s.spro.cycle_counter 1
          opcode := decode_opcode s.spro.inst
          dst := decode_dst s.spro.inst
          src0 := decode_src0 s.spro.inst
          src1 := decode_src1 s.spro.inst
          immediate := decode_immediate s.spro.inst
          ctl_state := 4 } } := by
  simp [sp_ctl_dec0, ctl_dec0, count_cycle, h]

theorem dec0_same_step (s1 s2 : sp_t) (a1 a2 a3 a4 a5 a6 b1 b2 b3 b4 b5 b6 : Int)
    (hm : s1.sram = s2.sram) (hs : s1.start = s2.start) (hb : s1.btaken = s2.btaken)
    (hp : s1.stop = s2.stop) (h1 : a1 = b1) (h2 : a2 = b2) (h3 : a3 = b3) (h4 : a4 = b4)
    (h5 : a5 = b5) (h6 : a6 = b6) :
    same_step
      { s1 with
        sprn := { s1.sprn with
          cycle_counter := a6
          opcode := a1
          dst := a2
          src0 := a3
          src1 := a4
          immediate := a5
          ctl_state := 4 } }
      { s2 with
        sprn := { s2.sprn with
          cycle_counter := b6
          opcode := b1
          dst := b2
          src0 := b3
          src1 := b4
          immediate := b5
          ctl_state := 4 } } s1 s2 := by
  subst h1 h2 h3 h4 h5 h6
  simp [same_step, same_fields, same_or_kept, hm, hs, hb, hp]

theorem sp_ctl_exec1_eq (s : sp_t) (h : s.spro.ctl_state = 6) :
    sp_ctl s =
      { s with
        sram :=
          if s.spro.opcode = 9 then
            llsim_mem_write (llsim_mem_set_datain s.sram s.spro.alu0) s.spro.alu1
          else s.sram
        start := if s.spro.opcode = 24 then 0 else s.start
        stop := if s.spro.opcode = 24 then true else s.stop
        btaken := if is_branch s.spro.opcode ∧ s.spro.aluout = 1 then 1 else s.btaken
        sprn := exec1_registers s.spro s.sprn s.sram.dataout s.btaken } := by
  by_cases hb : s.btaken = 0 <;> by_cases ht : is_branch s.spro.opcode ∧ s.spro.aluout = 1 <;>
    simp [sp_ctl_exec1, ctl_exec1, exec1_switch_eq, exec1_increment_pc,
      exec1_registers, count_cycle, h, hb, ht]

theorem update_same_or_kept (f g : Int → Int) (d v i : Int) :
    same_or_kept (Function.update f d v i) (Function.update g d v i) (f i) (g i) := by
  by_cases hi : i = d
  · subst hi
    simp [same_or_kept]
  · simp [same_or_kept, Function.update_noteq hi]

theorem exec1_registers_same_fields (o n1 n2 : sp_registers_t) (d b : Int)
    (hpc : n1.pc = n2.pc) :
    same_fields (exec1_registers o n1 d b) (exec1_registers o n2 d b) n1 n2 := by
  refine ⟨?_, ?_, ?_⟩
  · intro i
    by_cases hw : writes_aluout o.opcode
    · simp only [exec1_registers, hw, if_true]
      exact update_same_or_kept _ _ _ _ _
    by_cases hl : o.opcode = LD
    · simp only [exec1_registers, hw, hl, if_true, if_false]
      exact update_same_or_kept _ _ _ _ _
    by_cases ht : is_branch o.opcode ∧ o.aluout = 1
    · simp only [exec1_registers, hw, hl, ht, if_true, if_false]
      exact update_same_or_kept _ _ _ _ _
    · simp only [exec1_registers, hw, hl, ht, if_false]
      exact Or.inr ⟨rfl, rfl⟩
  · by_cases ht : is_branch o.opcode ∧ o.aluout = 1 <;> by_cases hb : b = 0 <;>
      simp [exec1_registers, same_or_kept, ht, hb, hpc]
  · simp [exec1_registers, same_or_kept]

theorem sp_ctl_same_step (s1 s2 : sp_t)
    (ho : s1.spro = s2.spro) (hm : s1.sram = s2.sram) (hs : s1.start = s2.start)
    (hb : s1.btaken = s2.btaken) (hp : s1.stop = s2.stop)
    (hop : s1.sprn.opcode = s2.sprn.opcode) (hpc : s1.sprn.pc = s2.sprn.pc) :
    same_step (sp_ctl s1) (sp_ctl s2) s1 s2 := by
  have hc : s1.spro.ctl_state = s2.spro.ctl_state := by rw [ho]
  rcases ctl_state_cases s2.spro.ctl_state with h | h | h | h | h | h | h | h
  · rw [sp_ctl_idle s1 (hc.trans h), sp_ctl_idle s2 h]
    by_cases hst : s2.start = 0 <;>
      simp [ctl_idle, count_cycle, same_step, same_fields, same_or_kept, ho, hm, hs, hb, hp,
        hop, hpc, hst]
  · rw [sp_ctl_fetch0 s1 (hc.trans h), sp_ctl_fetch0 s2 h]
    simp [ctl_fetch0, count_cycle, same_step, same_fields, same_or_kept, ho, hm, hs, hb, hp,
      hop, hpc]
  · rw [sp_ctl_fetch1 s1 (hc.trans h), sp_ctl_fetch1 s2 h]
    simp [ctl_fetch1, count_cycle, same_step, same_fields, same_or_kept, ho, hm, hs, hb, hp,
      hop, hpc]
  · rw [sp_ctl_dec0_eq s1 (hc.trans h), sp_ctl_dec0_eq s2 h]
    exact dec0_same_step s1 s2 _ _ _ _ _ _ _ _ _ _ _ _ hm hs hb hp (by rw [ho]) (by rw [ho])
      (by rw [ho]) (by rw [ho]) (by rw [ho]) (by rw [ho])
  · rw [sp_ctl_dec1 s1 (hc.trans h), sp_ctl_dec1 s2 h, ctl_dec1_eq, ctl_dec1_eq]
    simp [count_cycle, same_step, same_fields, same_or_kept, ho, hm, hs, hb, hp, hop, hpc]
  · rw [sp_ctl_exec0 s1 (hc.trans h), sp_ctl_exec0 s2 h, ctl_exec0, ctl_exec0,
      exec0_switch_eq, exec0_switch_eq]
    have ha : same_or_kept
        (exec0_aluout s2.spro.opcode s2.spro.alu0 s2.spro.alu1 s1.sprn.aluout)
        (exec0_aluout s2.spro.opcode s2.spro.alu0 s2.spro.alu1 s2.sprn.aluout)
        s1.sprn.aluout s2.sprn.aluout := by
      rcases opcode_cases s2.spro.opcode with
        k | k | k | k | k | k | k | k | k | k | k | k | k | k | k | k | k
      all_goals simp [exec0_aluout, same_or_kept, k]
    simp only [count_cycle, same_step, same_fields, ho, hm, hs, hb, hp]
    refine ⟨trivial, trivial, trivial, trivial, trivial, trivial, ?_, ?_, ?_, ?_, ?_, ?_, ?_,
      ?_, ?_, ha, ?_, ?_, ?_⟩
    all_goals simp [same_or_kept, hop, hpc]
  · rw [sp_ctl_exec1_eq s1 (hc.trans h), sp_ctl_exec1_eq s2 h]
    refine ⟨?_, ?_, ?_, ?_, rfl, rfl, ?_⟩
    · simp only [ho, hm]
    · simp only [ho, hs]
    · simp only [ho, hb]
    · simp only [ho, hp]
    · simp only [ho, hm, hb]
      exact exec1_registers_same_fields _ _ _ _ _ hpc
  · rw [sp_ctl_other s1 (by rw [hc]; exact h), sp_ctl_other s2 h]
    simp [count_cycle, same_step, same_fields, same_or_kept, ho, hm, hs, hb, hp, hop, hpc]

theorem jin_loop (n : Nat) :
    (run (6 * n) (tick jin_loop_state)).spro.ctl_state = 1 ∧
    (run (6 * n) (tick jin_loop_state)).sram.data
      = (fun a => if a = 0 then 0x28000000 else 0) ∧
    (run (6 * n) (tick jin_loop_state)).spro.pc = 0 := by
  induction n with
  | zero =>
    have t := tick_reset_state (memory_of (fun a => if a = 0 then 0x28000000 else 0)) 1 0
      (by decide)
    have e : run (6 * 0) (tick jin_loop_state) = tick jin_loop_state := rfl
    rw [e]
    unfold jin_loop_state
    rw [t]
    refine ⟨rfl, ?_, rfl⟩
    simp [llsim_clock_memory, memory_of]
  | succ k ih =>
    obtain ⟨hc, hd, hp⟩ := ih
    have e : 6 * (k + 1) = 6 * k + 6 := by omega
    rw [e, run_add (6 * k) 6]
    generalize run (6 * k) (tick jin_loop_state) = y at hc hd hp
    have hw : y.sram.data y.spro.pc = 0x28000000 := by rw [hd, hp]; rfl
    have o1 : decode_opcode 0x28000000 = 20 := by decide
    have o2 : decode_immediate 0x28000000 = 0 := by decide
    have hal : ∀ a0 a1 old, exec0_aluout 20 a0 a1 old = 1 := by
      intro a0 a1 old; simp [exec0_aluout]
    refine ⟨?_, ?_, ?_⟩
    · rw [run6_ctl_state y _ hc hw, o1]; rfl
    · rw [run6_data y _ hc hw, o1, hd]; rfl
    · rw [run6_pc y _ hc hw, o1, hal, o2]
      simp [is_branch]

theorem jin_loop_opcode (j : Nat) :
    (run (6 * j + 5) (tick jin_loop_state)).spro.opcode = 20 := by
  obtain ⟨hc, hd, hp⟩ := jin_loop j
  rw [run_add (6 * j) 5, (run_exec0 _ hc).2.1, hd, hp]
  exact (by decide : decode_opcode 0x28000000 = 20)

/-! The claims -/

/-- Claim C1 (end-to-end run). For every 16-bit immediate field `imm2`, from the
zeroed reset state with the start flag set and a memory holding
`0x00880005` (ADD r2 = imm 5), `0x00D10000 | imm2` (ADD r3 = r2 + imm2) and
`0x30000000` (HLT) at addresses 0, 1, 2: the nineteenth step is the
`CTL_STATE_EXEC1` step of the HLT, and after it `r[2] = 5`,
`r[3] = 5 + signext(imm2)` (which needs no wrap-around), the control state is
`CTL_STATE_IDLE`, the start flag is cleared, the stop is requested and every
memory word equals the initial image. -/
theorem C1_end_to_end (m : llsim_memory_t) (st b imm2 : Int) (hst : st ≠ 0)
    (hlo : 0 ≤ imm2) (hhi : imm2 < 65536)
    (h0 : m.data 0 = 0x00880005) (h1 : m.data 1 = or32 0x00D10000 imm2)
    (h2 : m.data 2 = 0x30000000) :
    ((run 18 (reset_state m st b)).spro.ctl_state = CTL_STATE_EXEC1 ∧
      (run 18 (reset_state m st b)).spro.opcode = HLT) ∧
    (run 19 (reset_state m st b)).spro.r 2 = 5 ∧
    (run 19 (reset_state m st b)).spro.r 3 = 5 + sign_extend16 imm2 ∧
    (run 19 (reset_state m st b)).spro.r 3 = wrap32 (5 + sign_extend16 imm2) ∧
    (run 19 (reset_state m st b)).spro.ctl_state = CTL_STATE_IDLE ∧
    (run 19 (reset_state m st b)).start = 0 ∧
    (run 19 (reset_state m st b)).stop = true ∧
    (∀ a, (run 19 (reset_state m st b)).sram.data a = m.data a) := by
  have e19 : run 19 (reset_state m st b) = run 6 (run 6 (run 6 (tick (reset_state m st b)))) := by
    have e : run 19 (reset_state m st b) = run 18 (tick (reset_state m st b)) := rfl
    rw [e, run_add 6 12, run_add 6 6]
  have e18 : run 18 (reset_state m st b) = run 5 (run 6 (run 6 (tick (reset_state m st b)))) := by
    have e : run 18 (reset_state m st b) = run 17 (tick (reset_state m st b)) := rfl
    rw [e, run_add 6 11, run_add 6 5]
  rw [e19, e18]
  -- the step out of the idle state
  have t0 := tick_reset_state m st b hst
  have cA : (tick (reset_state m st b)).spro.ctl_state = 1 := by rw [t0]
  have nA : (tick (reset_state m st b)).sprn = (tick (reset_state m st b)).spro := by rw [t0]
  have pA : (tick (reset_state m st b)).spro.pc = 0 := by rw [t0]; rfl
  have gA : (tick (reset_state m st b)).spro.r = fun _ => 0 := by rw [t0]; rfl
  have dA : (tick (reset_state m st b)).sram.data = m.data := by
    rw [t0]; simp [llsim_clock_memory]
  generalize tick (reset_state m st b) = sA at cA nA pA gA dA
  -- first instruction: ADD r2 = imm 5
  have wA : sA.sram.data sA.spro.pc = 0x00880005 := by rw [dA, pA, h0]
  have o1 : decode_opcode 0x00880005 = 0 := by decide
  have o2 : decode_dst 0x00880005 = 2 := by decide
  have o3 : decode_src0 0x00880005 = 1 := by decide
  have o4 : decode_src1 0x00880005 = 0 := by decide
  have o5 : decode_immediate 0x00880005 = 5 := by decide
  have cB := run6_ctl_state sA _ cA wA
  have nB := run6_sprn sA _ cA wA
  have pB := run6_pc sA _ cA wA
  have gB := run6_r sA _ cA wA
  have dB := run6_data sA _ cA wA
  rw [o1] at cB
  simp only [o1, is_branch, nA, pA] at pB
  simp only [o1, o2, o3, o4, o5, writes_aluout, exec0_aluout, instr_alu0, instr_alu1,
    operand_select, nA, gA] at gB
  simp only [o1] at dB
  norm_num at cB pB gB dB
  have p1 : add32 0 1 = 1 := by decide
  have p5 : add32 5 0 = 5 := by decide
  rw [p1] at pB
  rw [p5] at gB
  rw [dA] at dB
  generalize run 6 sA = sB at cB nB pB gB dB
  clear cA nA pA gA dA wA sA t0 e19 e18
  -- second instruction: ADD r3 = r2 + imm2
  have hw := or32_field imm2 hlo hhi
  have wB : sB.sram.data sB.spro.pc = 13697024 + imm2 := by rw [dB, pB, h1, hw]
  have q1 : decode_opcode (13697024 + imm2) = 0 := by rw [decode_opcode_eq]; omega
  have q2 : decode_dst (13697024 + imm2) = 3 := by rw [decode_dst_eq]; omega
  have q3 : decode_src0 (13697024 + imm2) = 2 := by rw [decode_src0_eq]; omega
  have q4 : decode_src1 (13697024 + imm2) = 1 := by rw [decode_src1_eq]; omega
  have q5 : decode_immediate (13697024 + imm2) = sign_extend16 imm2 := by
    rw [decode_immediate_eq, sign_extend16]
    have : (13697024 + imm2) % 65536 = imm2 := by omega
    rw [this]
  have cC := run6_ctl_state sB _ cB wB
  have nC := run6_sprn sB _ cB wB
  have pC := run6_pc sB _ cB wB
  have gC := run6_r sB _ cB wB
  have dC := run6_data sB _ cB wB
  rw [q1] at cC
  simp only [q1, is_branch, nB, pB] at pC
  simp only [q1, q2, q3, q4, q5, writes_aluout, exec0_aluout, instr_alu0, instr_alu1,
    operand_select, nB, gB] at gC
  simp only [q1] at dC
  norm_num at cC pC gC dC
  have p2 : add32 1 1 = 2 := by decide
  have ps : add32 5 (sign_extend16 imm2) = 5 + sign_extend16 imm2 := by
    unfold add32 wrap32 sign_extend16
    split_ifs <;> omega
  rw [p2] at pC
  rw [ps] at gC
  rw [dB] at dC
  generalize run 6 sB = sC at cC nC pC gC dC
  clear cB nB pB gB dB wB sB
  -- third instruction: HLT
  have wC : sC.sram.data sC.spro.pc = 0x30000000 := by rw [dC, pC, h2]
  have z1 : decode_opcode 0x30000000 = 24 := by decide
  have x5 := run_exec0 sC cC
  have cD := run6_ctl_state sC _ cC wC
  have gD := run6_r sC _ cC wC
  have dD := run6_data sC _ cC wC
  have tD := run6_start sC _ cC wC
  have uD := run6_stop sC _ cC wC
  rw [z1] at cD tD uD
  simp only [z1, writes_aluout, is_branch, nC, gC] at gD
  simp only [z1] at dD
  norm_num at cD gD dD tD uD
  rw [dC] at dD
  have w3 : wrap32 (5 + sign_extend16 imm2) = 5 + sign_extend16 imm2 := by
    unfold wrap32 sign_extend16
    split_ifs <;> omega
  refine ⟨⟨x5.1, ?_⟩, ?_, ?_, ?_, cD, tD, uD, ?_⟩
  · rw [x5.2.1, wC, z1]
  · rw [gD]; simp [Function.update]
  · rw [gD]; simp [Function.update]
  · rw [gD, w3]; simp [Function.update]
  · intro a; rw [dD]


/-- Witness of C1 at `imm2 = 0xFFFE` (`-2`): `r[2] = 5`, `r[3] = 3`, idle. -/
theorem C1_end_to_end_witness :
    (run 19 (reset_state (memory_of scenario_image) 1 0)).spro.r 2 = 5 ∧
    (run 19 (reset_state (memory_of scenario_image) 1 0)).spro.r 3 = 3 ∧
    (run 19 (reset_state (memory_of scenario_image) 1 0)).spro.ctl_state = CTL_STATE_IDLE ∧
    (∀ a, (run 19 (reset_state (memory_of scenario_image) 1 0)).sram.data a
      = scenario_image a) := by
  have h := C1_end_to_end (memory_of scenario_image) 1 0 0xFFFE (by decide) (by decide)
    (by decide) (by decide) (by decide) (by decide)
  exact ⟨h.2.1, h.2.2.1.trans (by decide), h.2.2.2.2.1, h.2.2.2.2.2.2.2⟩

/-- Claim C2 (fixed six-cycle latency). From every state whose control state is
`CTL_STATE_FETCH0`, whatever word is fetched (its opcode field is some value in
`0..31`, defined or not), the states before the next six steps are
`CTL_STATE_FETCH0`, `FETCH1`, `DEC0`, `DEC1`, `EXEC0`, `EXEC1` in this order,
each step adds exactly 1 to the cycle counter (6 in total, modulo `2^32`), and
the control state after the sixth step is `CTL_STATE_IDLE` if the opcode of the
fetched word is HLT and `CTL_STATE_FETCH0` otherwise. -/
theorem C2_fixed_six_cycle_latency (s : sp_t) (h : s.spro.ctl_state = CTL_STATE_FETCH0) :
    (run 0 s).spro.ctl_state = CTL_STATE_FETCH0 ∧
    (run 1 s).spro.ctl_state = CTL_STATE_FETCH1 ∧
    (run 2 s).spro.ctl_state = CTL_STATE_DEC0 ∧
    (run 3 s).spro.ctl_state = CTL_STATE_DEC1 ∧
    (run 4 s).spro.ctl_state = CTL_STATE_EXEC0 ∧
    (run 5 s).spro.ctl_state = CTL_STATE_EXEC1 ∧
    (run 6 s).spro.ctl_state =
      (if decode_opcode (s.sram.data s.spro.pc) = HLT then CTL_STATE_IDLE
       else CTL_STATE_FETCH0) ∧
    (∀ k, k < 6 →
      (run (k + 1) s).spro.cycle_counter = wrap32 ((run k s).spro.cycle_counter + 1)) ∧
    (run 6 s).spro.cycle_counter = wrap32 (s.spro.cycle_counter + 6) ∧
    0 ≤ decode_opcode (s.sram.data s.spro.pc) ∧ decode_opcode (s.sram.data s.spro.pc) < 32 := by
  have h1 : s.spro.ctl_state = 1 := h
  have e6 : run 6 s = tick (run 5 s) := run_succ_tick 5 s
  obtain ⟨x1, x2, x3⟩ := run_exec0 s h1
  have c1 : (run 1 s).spro.cycle_counter = add32 s.spro.cycle_counter 1 := by
    simp [run, tick_fetch0, h1]
  have c2 : (run 2 s).spro.cycle_counter = add32 (add32 s.spro.cycle_counter 1) 1 := by
    simp [run, tick_fetch0, tick_fetch1, h1]
  have c3 : (run 3 s).spro.cycle_counter =
      add32 (add32 (add32 s.spro.cycle_counter 1) 1) 1 := by
    simp [run, tick_fetch0, tick_fetch1, tick_dec0, h1]
  have c4 : (run 4 s).spro.cycle_counter =
      add32 (add32 (add32 (add32 s.spro.cycle_counter 1) 1) 1) 1 := by
    rw [run_decode s h1]; rfl
  have c6 : (run 6 s).spro.cycle_counter = add32 (run 5 s).spro.cycle_counter 1 := by
    rw [e6, tick_exec1 _ x1]; rfl
  refine ⟨h, ?_, ?_, ?_, ?_, x1, ?_, ?_, ?_, ?_, ?_⟩
  · simp [run, tick_fetch0, h1]
  · simp [run, tick_fetch0, tick_fetch1, h1]
  · simp [run, tick_fetch0, tick_fetch1, tick_dec0, h1]
  · rw [run_decode s h1]; rfl
  · rw [e6, tick_exec1 _ x1]
    show (if (run 5 s).spro.opcode = 24 then (0:Int) else 1) = _
    rw [x2]
  · intro k hk
    have hk' : k = 0 ∨ k = 1 ∨ k = 2 ∨ k = 3 ∨ k = 4 ∨ k = 5 := by omega
    rcases hk' with rfl | rfl | rfl | rfl | rfl | rfl
    · rw [c1]; rfl
    · rw [c2, c1]; rfl
    · rw [c3, c2]; rfl
    · rw [c4, c3]; rfl
    · rw [x3, c4]; rfl
    · rw [c6]; rfl
  · rw [c6, x3]
    simp only [add32, wrap32]
    omega
  · rw [decode_opcode_eq]; omega
  · rw [decode_opcode_eq]; omega

/-- Witness of C2 at `jlt_state`, whose fetched word is a JLT: the seventh
control state is `CTL_STATE_FETCH0` again and six cycles were counted. -/
theorem C2_fixed_six_cycle_latency_witness :
    jlt_state.spro.ctl_state = CTL_STATE_FETCH0 ∧
    (run 5 jlt_state).spro.ctl_state = CTL_STATE_EXEC1 ∧
    (run 6 jlt_state).spro.ctl_state = CTL_STATE_FETCH0 ∧
    (run 6 jlt_state).spro.cycle_counter = 6 := by
  have h := C2_fixed_six_cycle_latency jlt_state (by decide)
  exact ⟨h.1, h.2.2.2.2.2.1, h.2.2.2.2.2.2.1.trans (by decide),
    h.2.2.2.2.2.2.2.2.1.trans (by decide)⟩

/-- Claim C3 (register 0 reads as zero at every register-read site) fails on
the code. Run from reset on `r0_image`: the first instruction
`ADD r0 = imm 5` leaves `r[0] = 5` (the writeback of `CTL_STATE_EXEC1` has no
guard for `dst = 0`), and the `CTL_STATE_DEC1` step of the second instruction
`LHI r0, 1` (step 11) stages that stored content in `alu0`: the override
`sprn->alu0 = spro->r[spro->dst]` reads the register file directly, while the
two operand switches of the same step map index 0 to the value 0. -/
theorem C3_lhi_stages_stored_r0 :
    (run 7 (reset_state (memory_of r0_image) 1 0)).spro.r 0 = 5 ∧
    (run 10 (reset_state (memory_of r0_image) 1 0)).spro.ctl_state = CTL_STATE_DEC1 ∧
    (run 10 (reset_state (memory_of r0_image) 1 0)).spro.opcode = LHI ∧
    (run 10 (reset_state (memory_of r0_image) 1 0)).spro.dst = 0 ∧
    (run 11 (reset_state (memory_of r0_image) 1 0)).spro.alu0 = 5 ∧
    operand_select (run 10 (reset_state (memory_of r0_image) 1 0)).spro.r
      (run 10 (reset_state (memory_of r0_image) 1 0)).spro.immediate 0 = 0 := by
  decide

/-- Claim C4 (conditional branch semantics). For every instruction word `w`
with opcode JLT, JLE, JEQ or JNE, fetched at program counter `p = s.spro.pc`
from a committed state in `CTL_STATE_FETCH0`, with `a0`, `a1` the operands
selected for `src0` and `src1`: after the six steps of the instruction the
branch-taken flag is set if and only if the signed relation of the opcode
holds on `(a0, a1)`; when it holds the program counter is the sign-extended
immediate and `r[7]` is `p`; when it does not the program counter is `p + 1`
(in 32-bit arithmetic) and `r[7]` is unchanged. -/
theorem C4_conditional_branch (s : sp_t) (w : Int)
    (hs : s.spro.ctl_state = CTL_STATE_FETCH0) (hc : s.sprn = s.spro)
    (hw : s.sram.data s.spro.pc = w)
    (hop : decode_opcode w = JLT ∨ decode_opcode w = JLE ∨ decode_opcode w = JEQ
      ∨ decode_opcode w = JNE) :
    ((run 6 s).btaken = 1 ↔
      branch_relation (decode_opcode w)
        (operand_select s.spro.r (decode_immediate w) (decode_src0 w))
        (operand_select s.spro.r (decode_immediate w) (decode_src1 w))) ∧
    (branch_relation (decode_opcode w)
        (operand_select s.spro.r (decode_immediate w) (decode_src0 w))
        (operand_select s.spro.r (decode_immediate w) (decode_src1 w)) →
      (run 6 s).spro.pc = decode_immediate w ∧ (run 6 s).spro.r 7 = s.spro.pc) ∧
    (¬ branch_relation (decode_opcode w)
        (operand_select s.spro.r (decode_immediate w) (decode_src0 w))
        (operand_select s.spro.r (decode_immediate w) (decode_src1 w)) →
      (run 6 s).spro.pc = wrap32 (s.spro.pc + 1) ∧ (run 6 s).spro.r 7 = s.spro.r 7) := by
  rw [run_instruction s w hs hw, hc]
  generalize ha0 : operand_select s.spro.r (decode_immediate w) (decode_src0 w) = a0
  generalize ha1 : operand_select s.spro.r (decode_immediate w) (decode_src1 w) = a1
  have q0 : instr_alu0 s.spro w = a0 := by
    rcases hop with ho | ho | ho | ho <;> simp [instr_alu0, ho, ha0]
  have q1 : instr_alu1 s.spro w = a1 := by
    rcases hop with ho | ho | ho | ho <;> simp [instr_alu1, ho, ha1]
  have hbr : is_branch (decode_opcode w) := by
    rcases hop with ho | ho | ho | ho <;> simp [is_branch, ho]
  have hnw : ¬ writes_aluout (decode_opcode w) := by
    rcases hop with ho | ho | ho | ho <;> simp [writes_aluout, ho]
  have hn8 : decode_opcode w ≠ 8 := by
    rcases hop with ho | ho | ho | ho <;> simp [ho]
  have hal : (exec0_registers s.spro s.spro.cycle_counter w).aluout = 1 ↔
      branch_relation (decode_opcode w) a0 a1 := by
    have e : (exec0_registers s.spro s.spro.cycle_counter w).aluout =
        exec0_aluout (decode_opcode w) a0 a1 s.spro.aluout := by
      rw [exec0_registers_aluout, q0, q1]
    rw [e]
    rcases hop with ho | ho | ho | ho
    · by_cases hr : a0 < a1 <;> simp [exec0_aluout, branch_relation, ho, hr]
    · by_cases hr : a0 ≤ a1 <;> simp [exec0_aluout, branch_relation, ho, hr]
    · by_cases hr : a0 = a1 <;> simp [exec0_aluout, branch_relation, ho, hr]
    · by_cases hr : a0 = a1 <;> simp [exec0_aluout, branch_relation, ho, hr]
  by_cases hrel : branch_relation (decode_opcode w) a0 a1
  · have h1 := hal.mpr hrel
    simp [exec1_registers, exec0_registers_opcode, exec0_registers_immediate, exec0_registers_pc,
      exec0_registers_r, hbr, hnw, hn8, h1, hrel]
  · have h1 : ¬ (exec0_registers s.spro s.spro.cycle_counter w).aluout = 1 :=
      fun c => hrel (hal.mp c)
    simp [exec1_registers, exec0_registers_opcode, exec0_registers_immediate, exec0_registers_pc,
      exec0_registers_r, hbr, hnw, hn8, h1, hrel, add32]

/-- Witness of C4: `JLT r2, r3, 100` at address 10 with `r[2] = -1`,
`r[3] = 4` is taken (the comparison is signed): the program counter becomes
100 and `r[7]` becomes 10. -/
theorem C4_conditional_branch_witness :
    (run 6 jlt_state).btaken = 1 ∧ (run 6 jlt_state).spro.pc = 100
      ∧ (run 6 jlt_state).spro.r 7 = 10 := by
  have h := C4_conditional_branch jlt_state 0x20130064 (by decide) rfl (by decide)
    (by decide)
  have rel : branch_relation (decode_opcode 0x20130064)
      (operand_select jlt_state.spro.r (decode_immediate 0x20130064) (decode_src0 0x20130064))
      (operand_select jlt_state.spro.r (decode_immediate 0x20130064) (decode_src1 0x20130064)) := by
    decide
  exact ⟨h.1.mpr rel, h.2.1 rel⟩

/-- Claim C5 (unconditional jump-and-link). For every instruction word `w`
with opcode JIN, whatever its other fields, fetched at program counter
`p = s.spro.pc` from a committed state in `CTL_STATE_FETCH0`, whatever the
registers, `aluout` and the flag `btaken` hold: after the six steps of the
instruction the branch-taken flag is set, the program counter is the
sign-extended immediate and `r[7]` is `p`. -/
theorem C5_jump_and_link (s : sp_t) (w : Int)
    (hs : s.spro.ctl_state = CTL_STATE_FETCH0) (hc : s.sprn = s.spro)
    (hw : s.sram.data s.spro.pc = w) (hop : decode_opcode w = JIN) :
    (run 6 s).btaken = 1 ∧ (run 6 s).spro.pc = decode_immediate w
      ∧ (run 6 s).spro.r 7 = s.spro.pc := by
  rw [run_instruction s w hs hw, hc]
  have hal : (exec0_registers s.spro s.spro.cycle_counter w).aluout = 1 := by
    rw [exec0_registers_aluout]
    simp [exec0_aluout, hop]
  simp [exec1_registers, exec0_registers_opcode, exec0_registers_immediate,
    exec0_registers_pc, exec0_registers_r, is_branch, writes_aluout, hop, hal]

/-- Witness of C5: `JIN 100` at address 10, entered with `btaken = 1`. -/
theorem C5_jump_and_link_witness :
    jin_state.btaken = 1 ∧ (run 6 jin_state).btaken = 1 ∧ (run 6 jin_state).spro.pc = 100
      ∧ (run 6 jin_state).spro.r 7 = 10 :=
  ⟨by decide, C5_jump_and_link jin_state 0x28000064 (by decide) rfl (by decide) (by decide)⟩

/-- Claim C6 (load/store addressing). For every LD or ST instruction word `w`
fetched from a committed state in `CTL_STATE_FETCH0`, the address used is
`effective_address`: the sign-extended immediate when `src1 == 1`, otherwise
the register `src1` as it stood before the instruction, index 0 reading as 0.
LD issues its read at that address in `CTL_STATE_EXEC0` (the fifth step) and
writes the word stored there into `r[dst]`; ST issues in `CTL_STATE_EXEC1`
(the sixth step) a write at that address of the operand selected for `src0`
(0 for index 0, the immediate for index 1, the register otherwise), which the
memory stores there and nowhere else. -/
theorem C6_load_store_addressing (s : sp_t) (w : Int)
    (hs : s.spro.ctl_state = CTL_STATE_FETCH0) (hc : s.sprn = s.spro)
    (hw : s.sram.data s.spro.pc = w) (hop : decode_opcode w = LD ∨ decode_opcode w = ST) :
    (decode_opcode w = LD →
      (run 5 s).sram.read = true ∧ (run 5 s).sram.write = false ∧
      (run 5 s).sram.read_addr = effective_address s.spro.r w ∧
      (run 6 s).spro.r (decode_dst w) = s.sram.data (effective_address s.spro.r w)) ∧
    (decode_opcode w = ST →
      (run 6 s).sram.write = true ∧ (run 6 s).sram.read = false ∧
      (run 6 s).sram.write_addr = effective_address s.spro.r w ∧
      (run 6 s).sram.datain =
        operand_select s.spro.r (decode_immediate w) (decode_src0 w) ∧
      (run 6 s).sram.data (effective_address s.spro.r w) =
        operand_select s.spro.r (decode_immediate w) (decode_src0 w) ∧
      ∀ a, a ≠ effective_address s.spro.r w → (run 6 s).sram.data a = s.sram.data a) := by
  have ha1 : instr_alu1 s.spro w = effective_address s.spro.r w := by
    have h7 : decode_opcode w ≠ 7 := by rcases hop with ho | ho <;> simp [ho]
    by_cases h1 : decode_src1 w = 1 <;> by_cases h0 : decode_src1 w = 0 <;>
      simp [instr_alu1, effective_address, operand_select, h7, h1, h0]
  have ha0 : instr_alu0 s.spro w =
      operand_select s.spro.r (decode_immediate w) (decode_src0 w) := by
    have h7 : decode_opcode w ≠ 7 := by rcases hop with ho | ho <;> simp [ho]
    simp [instr_alu0, h7]
  have hs1 : s.spro.ctl_state = 1 := hs
  constructor
  · intro ho
    have e5 := run5_sram s w hs1 hw
    have e6 := run6_spro s w hs1 hw
    rw [hc] at e5 e6
    rw [if_pos ho, ha1] at e5
    rw [if_pos ho, ha1] at e6
    rw [e5, e6]
    refine ⟨by dsimp only, by dsimp only, by dsimp only, ?_⟩
    simp [exec1_registers, exec0_registers_opcode, exec0_registers_dst, writes_aluout, ho]
  · intro ho
    have e6 := run6_sram s w hs1 hw
    rw [hc, if_pos ho, ha0, ha1] at e6
    rw [e6]
    refine ⟨by dsimp only, by dsimp only, by dsimp only, by dsimp only, ?_, ?_⟩
    · dsimp only
      exact Function.update_same _ _ _
    · intro a hne
      dsimp only
      exact Function.update_noteq hne _ _

/-- Witness of C6: `LD r4 = MEM[r3]` with `r[3] = 20`, `MEM[20] = 77` reads at
address 20 and leaves `r[4] = 77`; `ST MEM[48] = r2` with `r[2] = 9` (the
address being the immediate) writes 9 at address 48. -/
theorem C6_load_store_addressing_witness :
    ((run 5 ld_state).sram.read = true ∧ (run 5 ld_state).sram.read_addr = 20
      ∧ (run 6 ld_state).spro.r 4 = 77) ∧
    ((run 6 st_state).sram.write = true ∧ (run 6 st_state).sram.write_addr = 48
      ∧ (run 6 st_state).sram.data 48 = 9) := by
  have hl := (C6_load_store_addressing ld_state 0x11030000 (by decide) rfl (by decide)
    (by decide)).1 (by decide)
  have hst := (C6_load_store_addressing st_state 0x12110030 (by decide) rfl (by decide)
    (by decide)).2 (by decide)
  exact ⟨⟨hl.1, hl.2.2.1, hl.2.2.2⟩, ⟨hst.1, hst.2.2.1, hst.2.2.2.2.1⟩⟩

/-- Claim C7 (store then load round trip). From a committed state in
`CTL_STATE_FETCH0` at program counter `p`, with the word at `p` a store
`ST` (data `src0 = sreg`, address `src1 = 3`) and the word at `p + 1` a load
`LD` (`dst = d`, address `src1 = 3`), `sreg` in `2..7` other than 3, `r[3]`
holding an address `a` in `0..65535` that is neither `p` nor `p + 1` and
`r[sreg]` holding `v`: after the twelve steps of the two instructions
`r[d] = v`. The memory stores a write before the next step and returns a read
in the following step (`llsim_clock_memory`). -/
theorem C7_store_load_round_trip (s : sp_t) (w1 w2 sreg d a v : Int)
    (hs : s.spro.ctl_state = CTL_STATE_FETCH0) (hc : s.sprn = s.spro)
    (hw1 : s.sram.data s.spro.pc = w1)
    (hw2 : s.sram.data (wrap32 (s.spro.pc + 1)) = w2)
    (hst : decode_opcode w1 = ST) (hs0 : decode_src0 w1 = sreg) (hs1 : decode_src1 w1 = 3)
    (hld : decode_opcode w2 = LD) (hd : decode_dst w2 = d) (hl1 : decode_src1 w2 = 3)
    (hsreg : 2 ≤ sreg ∧ sreg ≤ 7 ∧ sreg ≠ 3)
    (ha : s.spro.r 3 = a) (_har : 0 ≤ a ∧ a < 65536) (hv : s.spro.r sreg = v)
    (_hne1 : a ≠ s.spro.pc) (hne2 : a ≠ wrap32 (s.spro.pc + 1)) :
    (run 12 s).spro.r d = v := by
  have hs' : s.spro.ctl_state = 1 := hs
  have e12 : run 12 s = run 6 (run 6 s) := run_add 6 6 s
  -- the store
  have a1 : instr_alu1 s.spro w1 = a := by
    simp [instr_alu1, operand_select, hst, hs1, ha]
  have a0 : instr_alu0 s.spro w1 = v := by
    have h0 : sreg ≠ 0 := by omega
    have h1 : sreg ≠ 1 := by omega
    simp [instr_alu0, operand_select, hst, hs0, h0, h1, hv]
  have m6 := run6_sram s w1 hs' hw1
  rw [hc, if_pos hst, a0, a1] at m6
  have r6 := run6_spro s w1 hs' hw1
  rw [hc] at r6
  have n6 := run6_sprn s w1 hs' hw1
  have c6 : (run 6 s).spro.ctl_state = 1 := by
    rw [r6]; simp [exec1_registers, exec0_registers_opcode, hst]
  have p6 : (run 6 s).spro.pc = wrap32 (s.spro.pc + 1) := by
    rw [r6]
    simp [exec1_registers, exec0_registers_opcode, exec0_registers_pc, is_branch, hst, add32]
  have g6 : (run 6 s).spro.r = s.spro.r := by
    rw [r6]
    simp [exec1_registers, exec0_registers_opcode, exec0_registers_r, is_branch,
      writes_aluout, hst]
  have d6 : (run 6 s).sram.data = Function.update s.sram.data a v := by
    rw [m6]
  -- the load
  have hw' : (run 6 s).sram.data (run 6 s).spro.pc = w2 := by
    rw [d6, p6, Function.update_noteq (Ne.symm hne2), hw2]
  have b1 : instr_alu1 (run 6 s).spro w2 = a := by
    simp [instr_alu1, operand_select, hld, hl1, g6, ha]
  have r12 := run6_spro (run 6 s) w2 c6 hw'
  rw [n6, if_pos hld, b1, d6, Function.update_same] at r12
  rw [e12, r12]
  simp [exec1_registers, exec0_registers_opcode, exec0_registers_dst, writes_aluout, hld, hd]

/-- Witness of C7: `ST MEM[r3] = r2` then `LD r5 = MEM[r3]` at addresses 0 and
1, with `r[2] = 1234` and `r[3] = 100`, leave `r[5] = 1234`. -/
theorem C7_store_load_round_trip_witness :
    (run 12 round_trip_state).spro.r 5 = 1234 :=
  C7_store_load_round_trip round_trip_state 0x12130000 0x11430000 2 5 100 1234
    (by decide) rfl (by decide) (by decide) (by decide) (by decide) (by decide) (by decide)
    (by decide) (by decide) (by decide) (by decide) (by decide) (by decide) (by decide)
    (by decide)

/-- Claim C8 (halt is final). Once the `CTL_STATE_EXEC1` step of a HLT
instruction has run, the start flag is cleared and the control state is
`CTL_STATE_IDLE`; and after any number `k >= 1` of further steps without reset
(nothing sets the start flag again) the control state is still
`CTL_STATE_IDLE`, the program counter is 0, every register and every memory
word equal their values at the moment the HLT retired, and the step issued
neither a memory read nor a memory write. -/
theorem C8_halt_is_final (s : sp_t) (k : Nat)
    (hs : s.spro.ctl_state = CTL_STATE_EXEC1) (hop : s.spro.opcode = HLT) (hk : 1 ≤ k) :
    (tick s).start = 0 ∧ (tick s).spro.ctl_state = CTL_STATE_IDLE ∧
    (run k (tick s)).spro.ctl_state = CTL_STATE_IDLE ∧
    (run k (tick s)).spro.pc = 0 ∧
    (∀ i, (run k (tick s)).spro.r i = (tick s).spro.r i) ∧
    (∀ a, (run k (tick s)).sram.data a = (tick s).sram.data a) ∧
    (run k (tick s)).sram.read = false ∧ (run k (tick s)).sram.write = false ∧
    (run k (tick s)).start = 0 := by
  have t := tick_exec1 s hs
  have h0 : (tick s).start = 0 := by rw [t]; simp [hop]
  have h1 : (tick s).spro.ctl_state = 0 := by rw [t]; simp [exec1_registers, hop]
  have h2 : (tick s).sprn.ctl_state = 0 := by rw [t]; simp [exec1_registers, hop]
  have h3 : (tick s).sprn.r = (tick s).spro.r := by rw [t]
  obtain ⟨j, rfl⟩ : ∃ j, k = j + 1 := ⟨k - 1, by omega⟩
  obtain ⟨i1, i2, i3, _, i5, i6, i7, i8⟩ := idle_forever j (tick s) h1 h2 h0
  refine ⟨h0, h1, i1, i2, ?_, ?_, i6, i7, i8⟩
  · intro i; rw [i3, h3]
  · intro a; rw [i5]

/-- Witness of C8: three further steps after the HLT of `hlt_state` retired. -/
theorem C8_halt_is_final_witness :
    (tick hlt_state).start = 0 ∧ (run 3 (tick hlt_state)).spro.ctl_state = CTL_STATE_IDLE
      ∧ (run 3 (tick hlt_state)).spro.pc = 0 ∧ (run 3 (tick hlt_state)).spro.r 3 = 12 := by
  have h := C8_halt_is_final hlt_state 3 (by decide) (by decide) (by decide)
  exact ⟨h.1, h.2.2.1, h.2.2.2.1, (h.2.2.2.2.1 3).trans (by decide)⟩

/-- Claim C9 (decoder). For every instruction word `w` held in `inst`, negative
or not, the `CTL_STATE_DEC0` step of `sp_ctl` writes to the next snapshot
`opcode` = bits 29..25, `dst` = bits 24..22, `src0` = bits 21..19, `src1` =
bits 18..16 of the 32-bit pattern of `w`, so that bits 31..30 are ignored, the
opcode lies in `0..31` and each index in `0..7`; and `immediate` is the sign
extension of the field `f` = bits 15..0: `f - 65536` when bit 15 of `f` is set
and `f` when it is clear. -/
theorem C9_decoder (s : sp_t) (h : s.spro.ctl_state = CTL_STATE_DEC0) :
    ((sp_ctl s).sprn.opcode = ((toU32 s.spro.inst / 2 ^ 25 % 2 ^ 5 : Nat) : Int) ∧
     (sp_ctl s).sprn.dst = ((toU32 s.spro.inst / 2 ^ 22 % 2 ^ 3 : Nat) : Int) ∧
     (sp_ctl s).sprn.src0 = ((toU32 s.spro.inst / 2 ^ 19 % 2 ^ 3 : Nat) : Int) ∧
     (sp_ctl s).sprn.src1 = ((toU32 s.spro.inst / 2 ^ 16 % 2 ^ 3 : Nat) : Int) ∧
     (sp_ctl s).sprn.immediate =
       (if (toU32 s.spro.inst % 2 ^ 16).testBit 15
        then ((toU32 s.spro.inst % 2 ^ 16 : Nat) : Int) - 65536
        else ((toU32 s.spro.inst % 2 ^ 16 : Nat) : Int))) ∧
    (0 ≤ (sp_ctl s).sprn.opcode ∧ (sp_ctl s).sprn.opcode < 32) ∧
    (0 ≤ (sp_ctl s).sprn.dst ∧ (sp_ctl s).sprn.dst < 8) ∧
    (0 ≤ (sp_ctl s).sprn.src0 ∧ (sp_ctl s).sprn.src0 < 8) ∧
    (0 ≤ (sp_ctl s).sprn.src1 ∧ (sp_ctl s).sprn.src1 < 8) := by
  have hc := toU32_cast s.spro.inst
  have e : sp_ctl s = ctl_dec0 (count_cycle s) := sp_ctl_dec0 s h
  have e1 : (sp_ctl s).sprn.opcode = s.spro.inst / 33554432 % 32 := by
    rw [e, ← decode_opcode_eq]; rfl
  have e2 : (sp_ctl s).sprn.dst = s.spro.inst / 4194304 % 8 := by
    rw [e, ← decode_dst_eq]; rfl
  have e3 : (sp_ctl s).sprn.src0 = s.spro.inst / 524288 % 8 := by
    rw [e, ← decode_src0_eq]; rfl
  have e4 : (sp_ctl s).sprn.src1 = s.spro.inst / 65536 % 8 := by
    rw [e, ← decode_src1_eq]; rfl
  have e5 : (sp_ctl s).sprn.immediate =
      if 32768 ≤ s.spro.inst % 65536 then s.spro.inst % 65536 - 65536
      else s.spro.inst % 65536 := by
    rw [e, ← decode_immediate_eq]; rfl
  have hbit : (toU32 s.spro.inst % 2 ^ 16).testBit 15 = true ↔ 32768 ≤ s.spro.inst % 65536 := by
    rw [Nat.testBit_to_div_mod]
    simp only [decide_eq_true_eq]
    omega
  refine ⟨⟨?_, ?_, ?_, ?_, ?_⟩, ?_, ?_, ?_, ?_⟩
  · rw [e1]; push_cast; omega
  · rw [e2]; push_cast; omega
  · rw [e3]; push_cast; omega
  · rw [e4]; push_cast; omega
  · rw [e5]
    by_cases hb : 32768 ≤ s.spro.inst % 65536
    · rw [if_pos hb, if_pos (hbit.mpr hb)]; push_cast; omega
    · rw [if_neg hb, if_neg (fun c => hb (hbit.mp c))]; push_cast; omega
  · rw [e1]; omega
  · rw [e2]; omega
  · rw [e3]; omega
  · rw [e4]; omega

/-- Witness of C9 at the word `0xCE5B8001` (as a C `int`, `-832864255`), whose
bits 31..30 are set: opcode 7, dst 1, src0 3, src1 3 and immediate
`0x8001 - 65536 = -32767`. -/
theorem C9_decoder_witness :
    (dec0_state (-832864255)).spro.ctl_state = CTL_STATE_DEC0 ∧
    (sp_ctl (dec0_state (-832864255))).sprn.opcode = 7 ∧
    (sp_ctl (dec0_state (-832864255))).sprn.dst = 1 ∧
    (sp_ctl (dec0_state (-832864255))).sprn.src0 = 3 ∧
    (sp_ctl (dec0_state (-832864255))).sprn.src1 = 3 ∧
    (sp_ctl (dec0_state (-832864255))).sprn.immediate = -32767 := by
  have w := (C9_decoder (dec0_state (-832864255)) (by decide)).1
  refine ⟨by decide, ?_, ?_, ?_, ?_, ?_⟩
  · rw [w.1]; decide
  · rw [w.2.1]; decide
  · rw [w.2.2.1]; decide
  · rw [w.2.2.2.1]; decide
  · rw [w.2.2.2.2]; decide

/-- Claim C10 (re-run determinism). For every memory state `m` and start flag
`st` that is set, two runs from the zeroed reset state that differ in the
value the global `btaken` holds at the start (`b1`, `b2`) agree after every
number `n` of steps on both register snapshots, on the whole memory state (the
stored words, the read and write requests issued by the step and the read
result), on the start flag and on the stop request. -/
theorem C10_rerun_determinism (m : llsim_memory_t) (st b1 b2 : Int) (n : Nat)
    (hst : st ≠ 0) :
    (run n (reset_state m st b1)).spro = (run n (reset_state m st b2)).spro ∧
    (run n (reset_state m st b1)).sprn = (run n (reset_state m st b2)).sprn ∧
    (run n (reset_state m st b1)).sram = (run n (reset_state m st b2)).sram ∧
    (run n (reset_state m st b1)).start = (run n (reset_state m st b2)).start ∧
    (run n (reset_state m st b1)).stop = (run n (reset_state m st b2)).stop := by
  match n with
  | 0 => exact ⟨rfl, rfl, rfl, rfl, rfl⟩
  | 1 =>
    have e1 : ∀ x : sp_t, run 1 x = tick x := fun _ => rfl
    rw [e1, e1, tick_reset_state m st b1 hst, tick_reset_state m st b2 hst]
    exact ⟨rfl, rfl, rfl, rfl, rfl⟩
  | k + 2 =>
    have e : ∀ x : sp_t, run (k + 2) x = run k (tick (tick x)) := fun _ => rfl
    rw [e, e, tick_tick_reset_state m st b1 hst, tick_tick_reset_state m st b2 hst]
    exact ⟨rfl, rfl, rfl, rfl, rfl⟩

/-- Witness of C10: the three-word program of the end-to-end scenario, run for
19 steps with `btaken` 0 in one run and 1 in the other. -/
theorem C10_rerun_determinism_witness :
    (run 19 (reset_state (memory_of (fun a => if a = 0 then 0x00880005
        else if a = 1 then 0x00D10007 else if a = 2 then 0x30000000 else 0)) 1 0)).spro.r 3
      = (run 19 (reset_state (memory_of (fun a => if a = 0 then 0x00880005
        else if a = 1 then 0x00D10007 else if a = 2 then 0x30000000 else 0)) 1 1)).spro.r 3 :=
  congrArg (fun x => x.r 3)
    (C10_rerun_determinism (memory_of (fun a => if a = 0 then 0x00880005
        else if a = 1 then 0x00D10007 else if a = 2 then 0x30000000 else 0)) 1 0 1 19
      (by decide)).1

/-- Claim C12 (arithmetic/logic instructions). For every instruction word `w`
with opcode ADD, SUB, AND, OR or XOR fetched at program counter
`p = s.spro.pc` from a committed state in `CTL_STATE_FETCH0`, with `a0`, `a1`
the operands selected for `src0` and `src1` from the state before the
instruction (0 for index 0, the sign-extended immediate for index 1, `r[i]`
otherwise): after the six steps `r[dst]` is `a0 + a1` or `a0 - a1` modulo
`2^32`, or the bitwise AND, OR, XOR of the 32-bit patterns of `a0` and `a1`,
every other register is unchanged, every memory word is unchanged and the
program counter is `p + 1` (in 32-bit arithmetic). -/
theorem C12_alu_instructions (s : sp_t) (w : Int)
    (hs : s.spro.ctl_state = CTL_STATE_FETCH0) (hc : s.sprn = s.spro)
    (hw : s.sram.data s.spro.pc = w)
    (hop : decode_opcode w = ADD ∨ decode_opcode w = SUB ∨ decode_opcode w = AND
      ∨ decode_opcode w = OR ∨ decode_opcode w = XOR) :
    (decode_opcode w = ADD →
      (run 6 s).spro.r (decode_dst w) =
        wrap32 (operand_select s.spro.r (decode_immediate w) (decode_src0 w)
          + operand_select s.spro.r (decode_immediate w) (decode_src1 w))) ∧
    (decode_opcode w = SUB →
      (run 6 s).spro.r (decode_dst w) =
        wrap32 (operand_select s.spro.r (decode_immediate w) (decode_src0 w)
          - operand_select s.spro.r (decode_immediate w) (decode_src1 w))) ∧
    (decode_opcode w = AND →
      toU32 ((run 6 s).spro.r (decode_dst w)) =
        toU32 (operand_select s.spro.r (decode_immediate w) (decode_src0 w))
          &&& toU32 (operand_select s.spro.r (decode_immediate w) (decode_src1 w))) ∧
    (decode_opcode w = OR →
      toU32 ((run 6 s).spro.r (decode_dst w)) =
        toU32 (operand_select s.spro.r (decode_immediate w) (decode_src0 w))
          ||| toU32 (operand_select s.spro.r (decode_immediate w) (decode_src1 w))) ∧
    (decode_opcode w = XOR →
      toU32 ((run 6 s).spro.r (decode_dst w)) =
        toU32 (operand_select s.spro.r (decode_immediate w) (decode_src0 w))
          ^^^ toU32 (operand_select s.spro.r (decode_immediate w) (decode_src1 w))) ∧
    (-2147483648 ≤ (run 6 s).spro.r (decode_dst w)
      ∧ (run 6 s).spro.r (decode_dst w) < 2147483648) ∧
    (∀ i, i ≠ decode_dst w → (run 6 s).spro.r i = s.spro.r i) ∧
    (∀ a, (run 6 s).sram.data a = s.sram.data a) ∧
    (run 6 s).spro.pc = wrap32 (s.spro.pc + 1) := by
  have hs1 : s.spro.ctl_state = 1 := hs
  generalize ha0 : operand_select s.spro.r (decode_immediate w) (decode_src0 w) = a0
  generalize ha1 : operand_select s.spro.r (decode_immediate w) (decode_src1 w) = a1
  have h7 : decode_opcode w ≠ 7 := by
    rcases hop with ho | ho | ho | ho | ho <;> simp [ho]
  have q0 : instr_alu0 s.spro w = a0 := by simp [instr_alu0, h7, ha0]
  have q1 : instr_alu1 s.spro w = a1 := by simp [instr_alu1, h7, ha1]
  have hwr : writes_aluout (decode_opcode w) := by
    rcases hop with ho | ho | ho | ho | ho <;> simp [writes_aluout, ho]
  have hnb : ¬ is_branch (decode_opcode w) := by
    rcases hop with ho | ho | ho | ho | ho <;> simp [is_branch, ho]
  have hn9 : decode_opcode w ≠ 9 := by
    rcases hop with ho | ho | ho | ho | ho <;> simp [ho]
  have gr := run6_r s w hs1 hw
  rw [hc, if_pos hwr, q0, q1] at gr
  have gp := run6_pc s w hs1 hw
  rw [hc, if_neg (fun c => hnb c.1)] at gp
  have gd := run6_data s w hs1 hw
  rw [if_neg hn9] at gd
  have gdst : (run 6 s).spro.r (decode_dst w) =
      exec0_aluout (decode_opcode w) a0 a1 s.spro.aluout := by
    rw [gr]; exact Function.update_same _ _ _
  refine ⟨?_, ?_, ?_, ?_, ?_, ?_, ?_, ?_, ?_⟩
  · intro ho; rw [gdst]; simp [exec0_aluout, ho, add32]
  · intro ho; rw [gdst]; simp [exec0_aluout, ho, sub32]
  · intro ho; rw [gdst, ← toU32_and32]; simp [exec0_aluout, ho]
  · intro ho; rw [gdst, ← toU32_or32]; simp [exec0_aluout, ho]
  · intro ho; rw [gdst, ← toU32_xor32]; simp [exec0_aluout, ho]
  · rw [gdst]
    rcases hop with ho | ho | ho | ho | ho
    · have e : exec0_aluout (decode_opcode w) a0 a1 s.spro.aluout = wrap32 (a0 + a1) := by
        simp [exec0_aluout, ho, add32]
      rw [e]; exact wrap32_range _
    · have e : exec0_aluout (decode_opcode w) a0 a1 s.spro.aluout = wrap32 (a0 - a1) := by
        simp [exec0_aluout, ho, sub32]
      rw [e]; exact wrap32_range _
    · have e : exec0_aluout (decode_opcode w) a0 a1 s.spro.aluout = and32 a0 a1 := by
        simp [exec0_aluout, ho]
      rw [e]; exact wrap32_range _
    · have e : exec0_aluout (decode_opcode w) a0 a1 s.spro.aluout = or32 a0 a1 := by
        simp [exec0_aluout, ho]
      rw [e]; exact wrap32_range _
    · have e : exec0_aluout (decode_opcode w) a0 a1 s.spro.aluout = xor32 a0 a1 := by
        simp [exec0_aluout, ho]
      rw [e]; exact wrap32_range _
  · intro i hi; rw [gr]; exact Function.update_noteq hi _ _
  · intro a; rw [gd]
  · rw [gp]; unfold add32; rfl

/-- Witness of C12: `SUB r4 = r2 - imm` at address 3 with `r[2] = 2147483647`
and immediate `-1` leaves `r[4] = -2147483648` (the difference `2^31` modulo
`2^32`), `r[2]` unchanged and the program counter 4. -/
theorem C12_alu_instructions_witness :
    (run 6 sub_state).spro.r 4 = -2147483648 ∧ (run 6 sub_state).spro.r 2 = 2147483647
      ∧ (run 6 sub_state).spro.pc = 4 := by
  have h := C12_alu_instructions sub_state 0x0311FFFF (by decide) rfl (by decide)
    (by decide)
  exact ⟨(h.2.1 (by decide)).trans (by decide),
    (h.2.2.2.2.2.2.1 2 (by decide)).trans (by decide), h.2.2.2.2.2.2.2.2.trans (by decide)⟩

/-- Counterexample to claim C13 as stated: in `CTL_STATE_EXEC0` with opcode 2
(LSF), `alu0 = -8` (pattern `0xFFFFFFF8`) and shift amount `alu1 = 1`, the
step sets `aluout = -4` (pattern `0xFFFFFFFC`): the sign bit is shifted in.
The logical right shift of the pattern would be `0x7FFFFFFC`. -/
theorem C13_logical_shift_counterexample :
    (exec0_state LSF (-8) 1).spro.ctl_state = CTL_STATE_EXEC0 ∧
    (exec0_state LSF (-8) 1).spro.opcode = 2 ∧
    (exec0_state LSF (-8) 1).spro.alu0 = -8 ∧
    (exec0_state LSF (-8) 1).spro.alu1 = 1 ∧
    (sp_ctl (exec0_state LSF (-8) 1)).sprn.aluout = -4 ∧
    toU32 ((sp_ctl (exec0_state LSF (-8) 1)).sprn.aluout) = 0xFFFFFFFC ∧
    toU32 (-8) >>> 1 = 0x7FFFFFFC ∧
    toU32 ((sp_ctl (exec0_state LSF (-8) 1)).sprn.aluout) ≠ toU32 (-8) >>> 1 := by
  decide

/-- Claim C13 as amended (shift direction mapping). For every 32-bit `alu0`
and every shift amount `0 <= alu1 < 32`, the `CTL_STATE_EXEC0` step for opcode
2 (LSF) sets `aluout` to `alu0` shifted right by `alu1` bits arithmetically
(the floor of `alu0 / 2^alu1`, sign bit replicated), which is the logical
right shift of the pattern whenever `alu0 >= 0`; and for opcode 3 (RSF) it
sets `aluout` to `alu0` shifted left by `alu1` bits, modulo `2^32`. -/
theorem C13_shift_direction (s : sp_t)
    (hs : s.spro.ctl_state = CTL_STATE_EXEC0)
    (hlo : -2147483648 ≤ s.spro.alu0) (hhi : s.spro.alu0 < 2147483648)
    (h0 : 0 ≤ s.spro.alu1) (h1 : s.spro.alu1 < 32) :
    (s.spro.opcode = LSF →
      (sp_ctl s).sprn.aluout = s.spro.alu0 / 2 ^ s.spro.alu1.toNat ∧
      (0 ≤ s.spro.alu0 →
        toU32 (sp_ctl s).sprn.aluout = toU32 s.spro.alu0 >>> s.spro.alu1.toNat)) ∧
    (s.spro.opcode = RSF →
      toU32 (sp_ctl s).sprn.aluout = (toU32 s.spro.alu0 <<< s.spro.alu1.toNat) % 2 ^ 32) := by
  have e := sp_ctl_exec0_aluout s hs
  constructor
  · intro ho
    have e2 : (sp_ctl s).sprn.aluout = shr32 s.spro.alu0 s.spro.alu1 := by
      rw [e]; simp [exec0_aluout, ho]
    refine ⟨by rw [e2, shr32_eq_div _ _ h0 h1], ?_⟩
    intro hnn
    rw [e2]
    exact toU32_shr32_nonneg _ _ hnn (by omega) h0 h1
  · intro ho
    have e2 : (sp_ctl s).sprn.aluout = shl32 s.spro.alu0 s.spro.alu1 := by
      rw [e]; simp [exec0_aluout, ho]
    rw [e2]
    exact toU32_shl32 _ _ h0 h1

/-- Witness of C13 as amended: opcode 2 on `alu0 = -8`, `alu1 = 1` gives `-4`;
opcode 3 on `alu0 = 0x40000001`, `alu1 = 2` gives the pattern 4. -/
theorem C13_shift_direction_witness :
    (sp_ctl (exec0_state LSF (-8) 1)).sprn.aluout = -4 ∧
    toU32 (sp_ctl (exec0_state RSF 0x40000001 2)).sprn.aluout = 4 := by
  have h2 := (C13_shift_direction (exec0_state LSF (-8) 1) (by decide) (by decide)
    (by decide) (by decide) (by decide)).1 (by decide)
  have h3 := (C13_shift_direction (exec0_state RSF 0x40000001 2) (by decide) (by decide)
    (by decide) (by decide) (by decide)).2 (by decide)
  exact ⟨h2.1.trans (by decide), h3.trans (by decide)⟩

/-- Claim C14 (load-high-immediate). For every LHI instruction word `w`,
whatever its `src0` and `src1` fields, with destination `d = decode_dst w` and
16-bit immediate field `f` (bits 15..0 of `w`), fetched from a committed state
in `CTL_STATE_FETCH0`: after the six steps the 32-bit pattern of `r[d]` is
`(old r[d] AND 0xffff) OR (f << 16)`, so its upper 16 bits are `f` and its
lower 16 bits are those `r[d]` held before, and every other register is
unchanged. -/
theorem C14_load_high_immediate (s : sp_t) (w : Int)
    (hs : s.spro.ctl_state = CTL_STATE_FETCH0) (hc : s.sprn = s.spro)
    (hw : s.sram.data s.spro.pc = w) (hop : decode_opcode w = LHI) :
    toU32 ((run 6 s).spro.r (decode_dst w)) =
      (toU32 (s.spro.r (decode_dst w)) &&& 0xffff) ||| ((toU32 w % 65536) <<< 16) ∧
    toU32 ((run 6 s).spro.r (decode_dst w)) / 65536 = toU32 w % 65536 ∧
    toU32 ((run 6 s).spro.r (decode_dst w)) % 65536
      = toU32 (s.spro.r (decode_dst w)) % 65536 ∧
    (-2147483648 ≤ (run 6 s).spro.r (decode_dst w)
      ∧ (run 6 s).spro.r (decode_dst w) < 2147483648) ∧
    (∀ i, i ≠ decode_dst w → (run 6 s).spro.r i = s.spro.r i) := by
  have hs1 : s.spro.ctl_state = 1 := hs
  have hwr : writes_aluout (decode_opcode w) := by simp [writes_aluout, hop]
  have q0 : instr_alu0 s.spro w = s.spro.r (decode_dst w) := by simp [instr_alu0, hop]
  have q1 : instr_alu1 s.spro w = decode_immediate w := by simp [instr_alu1, hop]
  have gr := run6_r s w hs1 hw
  rw [hc, if_pos hwr, q0, q1] at gr
  have ea : exec0_aluout (decode_opcode w) (s.spro.r (decode_dst w)) (decode_immediate w)
      s.spro.aluout
      = or32 (and32 (s.spro.r (decode_dst w)) 0xffff) (shl32 (decode_immediate w) 16) := by
    simp [exec0_aluout, hop]
  have gdst : (run 6 s).spro.r (decode_dst w) =
      or32 (and32 (s.spro.r (decode_dst w)) 0xffff) (shl32 (decode_immediate w) 16) := by
    rw [gr, ← ea]; exact Function.update_same _ _ _
  have himm : toU32 (decode_immediate w) % 65536 = toU32 w % 65536 := by
    rw [decode_immediate_eq]
    unfold toU32
    split_ifs <;> omega
  have hp := lhi_pattern (s.spro.r (decode_dst w)) (decode_immediate w) _ himm
  have hh := lhi_pattern_halves (toU32 (s.spro.r (decode_dst w))) (toU32 w % 65536)
  refine ⟨?_, ?_, ?_, ?_, ?_⟩
  · rw [gdst, hp]
  · rw [gdst, hp]; exact hh.1
  · rw [gdst, hp]; exact hh.2
  · rw [gdst]; exact wrap32_range _
  · intro i hi; rw [gr]; exact Function.update_noteq hi _ _

/-- Witness of C14: `LHI r2` with immediate field `0xABCD` on `r[2] = 0x12345678`
leaves the pattern `0xABCD5678` in `r[2]`, that is `-1412606344`. -/
theorem C14_load_high_immediate_witness :
    toU32 ((run 6 lhi_state).spro.r 2) = 0xABCD5678 ∧
    (run 6 lhi_state).spro.r 2 = -1412606344 := by
  have h := C14_load_high_immediate lhi_state 0x0EBFABCD (by decide) rfl (by decide)
    (by decide)
  exact ⟨h.1.trans (by decide), by decide⟩

/-- Claim C15 (unrecognized opcodes are no-ops). For every instruction word `w`
whose opcode field is one of the undefined codes `10..15`, `21..23`, `25..31`,
fetched at program counter `p = s.spro.pc` from a committed state in
`CTL_STATE_FETCH0`, whatever `aluout` and `btaken` held before: after the six
steps every register and every memory word is unchanged, none of the six steps
issued a memory write, the program counter is `p + 1` (in 32-bit arithmetic)
and the control state is `CTL_STATE_FETCH0`. -/
theorem C15_unrecognized_opcodes (s : sp_t) (w : Int)
    (hs : s.spro.ctl_state = CTL_STATE_FETCH0) (hc : s.sprn = s.spro)
    (hw : s.sram.data s.spro.pc = w)
    (hop : (10 ≤ decode_opcode w ∧ decode_opcode w ≤ 15)
      ∨ (21 ≤ decode_opcode w ∧ decode_opcode w ≤ 23)
      ∨ (25 ≤ decode_opcode w ∧ decode_opcode w ≤ 31)) :
    (∀ i, (run 6 s).spro.r i = s.spro.r i) ∧
    (∀ a, (run 6 s).sram.data a = s.sram.data a) ∧
    (∀ k, k < 6 → (sp_run false (run k s)).sram.write = false) ∧
    (run 6 s).sram.write = false ∧
    (run 6 s).spro.pc = wrap32 (s.spro.pc + 1) ∧
    (run 6 s).spro.ctl_state = CTL_STATE_FETCH0 := by
  have hs1 : s.spro.ctl_state = 1 := hs
  have hnw : ¬ writes_aluout (decode_opcode w) := by
    show ¬ (decode_opcode w = (0 : Int) ∨ decode_opcode w = (1 : Int)
      ∨ decode_opcode w = (2 : Int) ∨ decode_opcode w = (3 : Int)
      ∨ decode_opcode w = (4 : Int) ∨ decode_opcode w = (5 : Int)
      ∨ decode_opcode w = (6 : Int) ∨ decode_opcode w = (7 : Int))
    omega
  have hnb : ¬ is_branch (decode_opcode w) := by
    show ¬ (decode_opcode w = (16 : Int) ∨ decode_opcode w = (17 : Int)
      ∨ decode_opcode w = (18 : Int) ∨ decode_opcode w = (19 : Int)
      ∨ decode_opcode w = (20 : Int))
    omega
  have hn8 : decode_opcode w ≠ 8 := by omega
  have hn9 : decode_opcode w ≠ 9 := by omega
  have hn24 : decode_opcode w ≠ 24 := by omega
  have gr := run6_r s w hs1 hw
  rw [hc, if_neg hnw, if_neg hn8, if_neg (fun c => hnb c.1)] at gr
  have gp := run6_pc s w hs1 hw
  rw [hc, if_neg (fun c => hnb c.1)] at gp
  have gd := run6_data s w hs1 hw
  rw [if_neg hn9] at gd
  have gc := run6_ctl_state s w hs1 hw
  rw [if_neg hn24] at gc
  have gm := run6_sram s w hs1 hw
  rw [if_neg hn9, if_neg hn8] at gm
  refine ⟨?_, ?_, ?_, ?_, ?_, gc⟩
  · intro i; rw [gr]
  · intro a; rw [gd]
  · intro k hk
    rw [(sp_run_write (run k s)).1]
    have hck := run_ctl_state_lt s hs1 k hk
    by_cases h5 : k = 5
    · subst h5
      have ho := (run_exec0 s hs1).2.1
      rw [hw] at ho
      simp [ho, hn9]
    · have : (run k s).spro.ctl_state ≠ 6 := by rw [hck]; omega
      simp [this]
  · rw [gm]
  · rw [gp]; unfold add32; rfl

/-- Witness of C15: the undefined opcode 15 at address 7, entered with
`aluout = 1` and `btaken = 1`, leaves `r[2] = 11`, `r[7] = 0`, and moves the
program counter to 8 in `CTL_STATE_FETCH0`. -/
theorem C15_unrecognized_opcodes_witness :
    unknown_opcode_state.btaken = 1 ∧ unknown_opcode_state.spro.aluout = 1 ∧
    (run 6 unknown_opcode_state).spro.r 2 = 11 ∧ (run 6 unknown_opcode_state).spro.r 7 = 0 ∧
    (run 6 unknown_opcode_state).spro.pc = 8 ∧
    (run 6 unknown_opcode_state).spro.ctl_state = CTL_STATE_FETCH0 := by
  have h := C15_unrecognized_opcodes unknown_opcode_state 0x1E9B1234 (by decide) rfl
    (by decide) (by decide)
  exact ⟨by decide, by decide, (h.1 2).trans (by decide), (h.1 7).trans (by decide),
    h.2.2.2.2.1.trans (by decide), h.2.2.2.2.2⟩

/-- Claim C16 (memory is written only by stores). For every state, the step
(`sp_run` without reset, which clears the request flags and calls `sp_ctl`)
issues a memory write exactly when the control state is `CTL_STATE_EXEC1` and
the opcode is ST; that write has address `alu1` and data `alu0`, so the clock
edge changes at most the word at `alu1`; in every other control state and for
every other opcode no write is issued and every memory word is unchanged.
Hence an instruction that is not a store leaves every memory word unchanged
over its six steps, and a store changes at most the word at its address. -/
theorem C16_memory_written_only_by_stores (s : sp_t) :
    ((sp_run false s).sram.write = true ↔
      (s.spro.ctl_state = CTL_STATE_EXEC1 ∧ s.spro.opcode = ST)) ∧
    ((s.spro.ctl_state = CTL_STATE_EXEC1 ∧ s.spro.opcode = ST) →
      (sp_run false s).sram.write_addr = s.spro.alu1 ∧
      (sp_run false s).sram.datain = s.spro.alu0 ∧
      (tick s).sram.data s.spro.alu1 = s.spro.alu0 ∧
      ∀ a, a ≠ s.spro.alu1 → (tick s).sram.data a = s.sram.data a) ∧
    (¬ (s.spro.ctl_state = CTL_STATE_EXEC1 ∧ s.spro.opcode = ST) →
      ∀ a, (tick s).sram.data a = s.sram.data a) ∧
    (∀ w, s.spro.ctl_state = CTL_STATE_FETCH0 → s.sram.data s.spro.pc = w →
      decode_opcode w ≠ ST → ∀ a, (run 6 s).sram.data a = s.sram.data a) ∧
    (∀ w, s.spro.ctl_state = CTL_STATE_FETCH0 → s.sram.data s.spro.pc = w →
      decode_opcode w = ST →
      ∀ a, a ≠ instr_alu1 s.sprn w → (run 6 s).sram.data a = s.sram.data a) := by
  obtain ⟨hw, _, ha⟩ := sp_run_write s
  have hd := tick_data s
  refine ⟨?_, ?_, ?_, ?_, ?_⟩
  · rw [hw]; simp
  · intro hst
    rw [hd, if_pos hst]
    exact ⟨(ha hst).1, (ha hst).2, Function.update_same _ _ _,
      fun a hne => Function.update_noteq hne _ _⟩
  · intro hst a
    rw [hd, if_neg hst]
  · intro w hs hw' hop a
    rw [run6_data s w hs hw', if_neg hop]
  · intro w hs hw' hop a hne
    rw [run6_data s w hs hw', if_pos hop]
    exact Function.update_noteq hne _ _

/-- Witness of C16: the sixth step of `st_state` (a store of `r[2] = 9` to
address 48) is issued from `CTL_STATE_EXEC1` with opcode ST and writes address
48; the first step of the same state issues no write. -/
theorem C16_memory_written_only_by_stores_witness :
    (sp_run false (run 5 st_state)).sram.write = true ∧
    (sp_run false (run 5 st_state)).sram.write_addr = 48 ∧
    (tick (run 5 st_state)).sram.data 48 = 9 ∧
    (sp_run false st_state).sram.write = false := by
  have h := C16_memory_written_only_by_stores (run 5 st_state)
  have hst : (run 5 st_state).spro.ctl_state = CTL_STATE_EXEC1
      ∧ (run 5 st_state).spro.opcode = ST := by decide
  have h0 := C16_memory_written_only_by_stores st_state
  refine ⟨h.1.mpr hst, (h.2.1 hst).1.trans (by decide), (h.2.1 hst).2.2.1.trans (by decide), ?_⟩
  cases hb : (sp_run false st_state).sram.write with
  | false => rfl
  | true => exact absurd (h0.1.mp hb).1 (by decide)

/-- Claim C17 (register index 1 is never read for its stored content at
decode time) fails on the code. Run from reset on `r1_image`: the first
instruction `ADD r1 = imm 5` leaves `r[1] = 5`, and the `CTL_STATE_DEC1` step
of the second instruction `LHI r1, 2` (step 11) stages that stored content in
`alu0`, not the immediate 2 of the current instruction: the override
`sprn->alu0 = spro->r[spro->dst]` reads the register file directly, while the
two operand switches of the same step map index 1 to the immediate. -/
theorem C17_lhi_stages_stored_r1 :
    (run 7 (reset_state (memory_of r1_image) 1 0)).spro.r 1 = 5 ∧
    (run 10 (reset_state (memory_of r1_image) 1 0)).spro.ctl_state = CTL_STATE_DEC1 ∧
    (run 10 (reset_state (memory_of r1_image) 1 0)).spro.opcode = LHI ∧
    (run 10 (reset_state (memory_of r1_image) 1 0)).spro.dst = 1 ∧
    (run 10 (reset_state (memory_of r1_image) 1 0)).spro.immediate = 2 ∧
    (run 11 (reset_state (memory_of r1_image) 1 0)).spro.alu0 = 5 ∧
    operand_select (run 10 (reset_state (memory_of r1_image) 1 0)).spro.r
      (run 10 (reset_state (memory_of r1_image) 1 0)).spro.immediate 1 = 2 := by
  decide

/-- Counterexample to claim C18 as stated: `JLT r2, r3, 100` with `dst = 4`,
`r[2] = -1`, `r[3] = 4`, `r[4] = 9`. In `CTL_STATE_EXEC1` (after five steps)
`aluout = 1`, and the step leaves `r[4] = 9`: it does not write `aluout` into
`r[dst]`. -/
theorem C18_compare_writeback_counterexample :
    (run 5 jlt_dst_state).spro.ctl_state = CTL_STATE_EXEC1 ∧
    (run 5 jlt_dst_state).spro.opcode = JLT ∧
    (run 5 jlt_dst_state).spro.dst = 4 ∧
    (run 5 jlt_dst_state).spro.aluout = 1 ∧
    (sp_ctl (run 5 jlt_dst_state)).sprn.r 4 = 9 ∧
    (sp_ctl (run 5 jlt_dst_state)).sprn.r 4 ≠ (run 5 jlt_dst_state).spro.aluout := by
  decide

/-- Claim C18 as amended (compare opcodes do not write back their ALU
result). For every state in `CTL_STATE_EXEC1` whose opcode is JLT, JLE, JEQ or
JNE, the step does not write `aluout` into `r[dst]`: every register other than
`r[7]` keeps the value of the next snapshot, `r[7]` keeps it too when
`aluout` is not 1, and when `aluout` is 1 (branch taken) `r[7]` receives the
program counter. -/
theorem C18_compare_no_writeback (s : sp_t)
    (hs : s.spro.ctl_state = CTL_STATE_EXEC1)
    (hop : s.spro.opcode = JLT ∨ s.spro.opcode = JLE ∨ s.spro.opcode = JEQ
      ∨ s.spro.opcode = JNE) :
    (∀ i, i ≠ 7 → (sp_ctl s).sprn.r i = s.sprn.r i) ∧
    (s.spro.aluout ≠ 1 → ∀ i, (sp_ctl s).sprn.r i = s.sprn.r i) ∧
    (s.spro.aluout = 1 → (sp_ctl s).sprn.r 7 = s.spro.pc) := by
  have e := sp_ctl_exec1_sprn s hs
  have hbr : is_branch s.spro.opcode := by
    rcases hop with ho | ho | ho | ho <;> simp [is_branch, ho]
  have hnw : ¬ writes_aluout s.spro.opcode := by
    rcases hop with ho | ho | ho | ho <;> simp [writes_aluout, ho]
  have hn8 : s.spro.opcode ≠ 8 := by
    rcases hop with ho | ho | ho | ho <;> simp [ho]
  have er : (sp_ctl s).sprn.r =
      if s.spro.aluout = 1 then Function.update s.sprn.r 7 s.spro.pc else s.sprn.r := by
    rw [e]
    by_cases ha : s.spro.aluout = 1 <;> simp [exec1_registers, hbr, hnw, hn8, ha]
  refine ⟨?_, ?_, ?_⟩
  · intro i hi
    rw [er]
    by_cases ha : s.spro.aluout = 1
    · rw [if_pos ha]; exact Function.update_noteq hi _ _
    · rw [if_neg ha]
  · intro ha i
    rw [er, if_neg ha]
  · intro ha
    rw [er, if_pos ha]
    exact Function.update_same _ _ _

/-- Witness of C18 as amended, at the `CTL_STATE_EXEC1` state of
`JLT r2, r3, 100` with `dst = 4`: `r[4]` stays 9 and `r[7]` becomes 10. -/
theorem C18_compare_no_writeback_witness :
    (sp_ctl (run 5 jlt_dst_state)).sprn.r 4 = 9 ∧
    (sp_ctl (run 5 jlt_dst_state)).sprn.r 7 = 10 := by
  have h := C18_compare_no_writeback (run 5 jlt_dst_state) (by decide) (by decide)
  exact ⟨(h.1 4 (by decide)).trans (by decide), (h.2.2 (by decide)).trans (by decide)⟩

/-- Claim C19 (the program counter is a 16-bit word address) fails on the
code, which keeps `pc` in an `int` and never masks it. From the zeroed reset
state on a memory whose word 0 is `0x28008000` (JIN with immediate field
`0x8000`), the `CTL_STATE_EXEC1` step of that instruction (step 7) assigns the
sign-extended immediate `-32768` to `sprn->pc`, and the commit makes it the
current program counter. From the zeroed reset state on the all-zero memory
(every word is `ADD r0 = r0 + r0`) the instruction number 65535 is fetched at
program counter 65535, and the increment after it leaves the program counter
65536. -/
theorem C19_pc_leaves_16_bit_range :
    ((run 6 jin_negative_state).spro.ctl_state = CTL_STATE_EXEC1 ∧
      (sp_run false (run 6 jin_negative_state)).sprn.pc = -32768 ∧
      (run 7 jin_negative_state).spro.pc = -32768) ∧
    ((run (6 * 65535 + 1) zero_program_state).spro.ctl_state = CTL_STATE_FETCH0 ∧
      (run (6 * 65535 + 1) zero_program_state).spro.pc = 65535 ∧
      (run (6 * 65536 + 1) zero_program_state).spro.pc = 65536) := by
  refine ⟨by decide, ?_, ?_, ?_⟩
  · rw [run_succ (6 * 65535) zero_program_state]
    exact (zero_program 65535).1
  · rw [run_succ (6 * 65535) zero_program_state, (zero_program 65535).2.2.2]
    decide
  · rw [run_succ (6 * 65536) zero_program_state, (zero_program 65536).2.2.2]
    decide

/-- Counterexample to claim C20 as stated: on the memory whose word 0 is
`0x28000000` (`JIN 0`, a jump to address 0) every instruction is fetched at
address 0 and is that JIN, so no HLT is executed and no load or store is issued;
the instruction number `n = 357913941` is in `CTL_STATE_EXEC1` after
`6 * n + 6` steps, and the 32-bit cycle counter then holds `-2147483644`, not
`6 * (n + 1) = 2147483652`, which exceeds the range of the counter; the index
the trace computes is `-357913941`, not `n`. -/
theorem C20_cycle_counter_overflow_counterexample :
    (∀ j, (run (6 * j + 1) jin_loop_state).spro.ctl_state = CTL_STATE_FETCH0 ∧
      (run (6 * j + 1) jin_loop_state).spro.pc = 0) ∧
    (∀ j, (run (6 * j + 6) jin_loop_state).spro.opcode = JIN) ∧
    (∀ j, j < 357913941 →
      (run (6 * j + 6) jin_loop_state).spro.opcode ≠ HLT) ∧
    (run (6 * 357913941 + 6) jin_loop_state).spro.ctl_state = CTL_STATE_EXEC1 ∧
    (run (6 * 357913941 + 6) jin_loop_state).spro.cycle_counter = -2147483644 ∧
    (run (6 * 357913941 + 6) jin_loop_state).spro.cycle_counter
      ≠ 6 * (357913941 + 1) ∧
    trace_index (run (6 * 357913941 + 6) jin_loop_state).spro = -357913941 ∧
    trace_index (run (6 * 357913941 + 6) jin_loop_state).spro ≠ 357913941 := by
  have hx : (tick jin_loop_state).spro.ctl_state = 1 := (jin_loop 0).1
  have hno : ∀ j, j < 357913941 →
      (run (6 * j + 5) (tick jin_loop_state)).spro.opcode ≠ 24 := by
    intro j _
    rw [jin_loop_opcode j]
    decide
  have hcc : (run (6 * 357913941 + 6) jin_loop_state).spro.cycle_counter
      = -2147483644 := by
    rw [run_cycle_counter (6 * 357913941 + 5) jin_loop_state]
    decide
  have hti : trace_index (run (6 * 357913941 + 6) jin_loop_state).spro = -357913941 := by
    unfold trace_index
    rw [hcc]
    decide
  refine ⟨?_, ?_, ?_, ?_, hcc, ?_, hti, ?_⟩
  · intro j
    rw [run_succ (6 * j) jin_loop_state]
    exact ⟨(jin_loop j).1, (jin_loop j).2.2⟩
  · intro j
    rw [run_succ (6 * j + 5) jin_loop_state]
    exact jin_loop_opcode j
  · intro j _
    rw [run_succ (6 * j + 5) jin_loop_state, jin_loop_opcode j]
    decide
  · rw [run_succ (6 * 357913941 + 5) jin_loop_state]
    exact exec1_after_instructions _ hx 357913941 hno
  · rw [hcc]; decide
  · rw [hti]; decide

/-- Claim C20 as amended (trace instruction index). In a run from the zeroed
reset state with the start flag set in which none of the instructions
`0..n-1` is a HLT, the instruction number `n` is in `CTL_STATE_EXEC1` after
`6 * n + 6` steps and the current cycle counter is then `6 * (n + 1)` reduced
to the 32-bit range of the counter; as long as `6 * (n + 1) < 2^31` it is
exactly `6 * (n + 1)`, and the index the trace computes as
`cycle_counter / 6 - 1` equals `n`. -/
theorem C20_trace_index (m : llsim_memory_t) (st b : Int) (n : Nat) (hst : st ≠ 0)
    (hno : ∀ j, j < n → (run (6 * j + 6) (reset_state m st b)).spro.opcode ≠ HLT) :
    (run (6 * n + 6) (reset_state m st b)).spro.ctl_state = CTL_STATE_EXEC1 ∧
    (run (6 * n + 6) (reset_state m st b)).spro.cycle_counter
      = wrap32 (6 * ((n : Int) + 1)) ∧
    (6 * ((n : Int) + 1) < 2147483648 →
      (run (6 * n + 6) (reset_state m st b)).spro.cycle_counter = 6 * ((n : Int) + 1) ∧
      trace_index (run (6 * n + 6) (reset_state m st b)).spro = n) := by
  have hx : (tick (reset_state m st b)).spro.ctl_state = 1 := by
    rw [tick_reset_state m st b hst]
  have hno' : ∀ j, j < n → (run (6 * j + 5) (tick (reset_state m st b))).spro.opcode ≠ 24 := by
    intro j hj
    have h := hno j hj
    rw [run_succ (6 * j + 5) (reset_state m st b)] at h
    exact h
  have hcc : (run (6 * n + 6) (reset_state m st b)).spro.cycle_counter
      = wrap32 (6 * ((n : Int) + 1)) := by
    rw [run_cycle_counter (6 * n + 5) (reset_state m st b)]
    have e0 : (reset_state m st b).spro.cycle_counter = 0 := rfl
    rw [e0]
    congr 1
    push_cast
    ring
  refine ⟨?_, hcc, ?_⟩
  · rw [run_succ (6 * n + 5) (reset_state m st b)]
    exact exec1_after_instructions _ hx n hno'
  · intro hb
    have hnn : (0 : Int) ≤ n := Int.ofNat_nonneg n
    have e1 : wrap32 (6 * ((n : Int) + 1)) = 6 * ((n : Int) + 1) := by
      unfold wrap32; omega
    refine ⟨by rw [hcc, e1], ?_⟩
    unfold trace_index div32
    rw [hcc, e1, Int.tdiv_eq_ediv (by omega) (by norm_num)]
    have e2 : 6 * ((n : Int) + 1) / 6 = (n : Int) + 1 := by omega
    rw [e2]
    unfold sub32 wrap32
    omega

/-- Witness of C20 as amended: in the end-to-end scenario the HLT is the
instruction number 2; it is in `CTL_STATE_EXEC1` after 18 steps with cycle
counter 18, and the trace index is 2. -/
theorem C20_trace_index_witness :
    (run 18 (reset_state (memory_of scenario_image) 1 0)).spro.ctl_state = CTL_STATE_EXEC1 ∧
    (run 18 (reset_state (memory_of scenario_image) 1 0)).spro.cycle_counter = 18 ∧
    trace_index (run 18 (reset_state (memory_of scenario_image) 1 0)).spro = 2 := by
  have h := C20_trace_index (memory_of scenario_image) 1 0 2 (by decide) (by decide)
  exact ⟨h.1, (h.2.2 (by decide)).1, (h.2.2 (by decide)).2⟩

end SP
